import Mathlib

/-!
# stardraw: the OpenGL 4.5 command executor

A shallow embedding of `sources/stardraw/gl45/commands_impl.cpp`.

* Machine integers are natural numbers; where the C++ arithmetic can wrap the
  reduction `% 2 ^ w` is written out.
* A `GLenum` / `GLbitfield` is the 32-bit value of the token; the C++ `return -1`
  of a translator is the value `4294967295`.
* Backend calls do not return anything the executors look at, so an executor
  is a function to its status and the list of calls it issued, in order.
* What the executors use but the translated file does not define (the command
  and enum declarations, the buffer registry, the vertex specification
  provider) is either a field of `gl45_impl` or a definition whose comment
  says so.
-/

set_option autoImplicit false

namespace stardraw

/-! ## Status values -/

/-- Modelled from the spec: the declaration of `status_type` is missing
(`types.hpp`); the kinds are those of the error taxonomy. -/
inductive status_type where
  | SUCCESS
  | UNKNOWN_NAME
  | UNKNOWN_SOURCE
  | BROKEN_SOURCE
  | RANGE_OVERFLOW
  | UNSUPPORTED
  | BACKEND_FAILURE
  deriving DecidableEq, Repr

/-- Modelled from the spec: the declaration of `status` is missing
(`types.hpp`); a status is a kind and a diagnostic message. -/
structure status where
  kind : status_type
  message : String
  deriving DecidableEq, Repr

/-- Modelled from the spec: the converting constructor of `status` is missing;
`return status_type::SUCCESS;` builds a status with an empty message. -/
def status.of_type (t : status_type) : status := ⟨t, ""⟩

/-- Modelled from the spec: `is_error_status` is missing (`types.hpp`); every
kind but `SUCCESS` is an error. -/
def is_error_status (s : status) : Bool := s.kind != status_type.SUCCESS

/-! ## Enumerations

The declarations are missing from the sources; the enumerators are the ones
the `switch` statements of the translators name.  A C++ enumeration can hold a
value that is none of its enumerators (through a cast): `undeclared` stands
for any such value. -/

/-- Modelled from the spec: primitive topology of a draw command. -/
inductive draw_mode where
  | TRIANGLES | TRIANGLE_FAN | TRIANGLE_STRIP | undeclared
  deriving DecidableEq, Repr

/-- Modelled from the spec: index width of an indexed draw. -/
inductive draw_indexed_index_type where
  | UINT_32 | UINT_16 | UINT_8 | undeclared
  deriving DecidableEq, Repr

/-- Modelled from the spec: attachment kind of a buffer attach command. -/
inductive buffer_attachment_type where
  | SHADER_STORAGE_BLOCK | SHADER_UNIFORM_BLOCK | SHADER_ATOMIC_COUNTER_BLOCK | undeclared
  deriving DecidableEq, Repr

/-- Modelled from the spec: upload discipline of a buffer upload command. -/
inductive buffer_upload_type where
  | UNSAFE_DIRECT | SAFE_STREAMING | SAFE_ONE_TIME | undeclared
  deriving DecidableEq, Repr

/-- Modelled from the spec: cull mode of a face cull command. -/
inductive face_cull_mode where
  | BACK | FRONT | BOTH | DISABLED | undeclared
  deriving DecidableEq, Repr

/-- Modelled from the spec: comparison of the depth test. -/
inductive depth_test_func where
  | ALWAYS | NEVER | LESS | LESS_EQUAL | GREATER | GREATER_EQUAL | EQUAL | NOT_EQUAL
  | undeclared
  deriving DecidableEq, Repr

/-- Modelled from the spec: which buffers a clear window command clears. -/
inductive clear_window_mode where
  | COLOR | DEPTH | STENCIL | COLOR_AND_DEPTH | COLOR_AND_STENCIL | DEPTH_AND_STENCIL | ALL
  | undeclared
  deriving DecidableEq, Repr

/-- Modelled from the spec: facing a stencil configuration is scoped to. -/
inductive stencil_facing where
  | FRONT | BACK | BOTH | undeclared
  deriving DecidableEq, Repr

/-- Modelled from the spec: comparison of the stencil test. -/
inductive stencil_test_func where
  | ALWAYS | NEVER | LESS | LESS_EQUAL | GREATER | GREATER_EQUAL | EQUAL | NOT_EQUAL
  | undeclared
  deriving DecidableEq, Repr

/-- Modelled from the spec: stencil buffer update operation. -/
inductive stencil_result_op where
  | KEEP | ZERO | REPLACE | INCREMENT | INCREMENT_WRAP | DECREMENT | DECREMENT_WRAP | INVERT
  | undeclared
  deriving DecidableEq, Repr

/-- Modelled from the spec: blend factor. -/
inductive blending_factor where
  | ZERO | ONE | CONSTANT_COLOR | CONSTANT_ALPHA
  | ONE_MINUS_CONSTANT_COLOR | ONE_MINUS_CONSTANT_ALPHA
  | SOURCE_COLOR | DEST_COLOR | ONE_MINUS_SOURCE_COLOR | ONE_MINUS_DEST_COLOR
  | SOURCE_ALPHA | DEST_ALPHA | ONE_MINUS_SOURCE_ALPHA | ONE_MINUS_DEST_ALPHA
  | SOURCE_ALPHA_SATURATE | SECONDARY_SOURCE_COLOR | SECONDARY_SOURCE_ALPHA
  | undeclared
  deriving DecidableEq, Repr

/-- Modelled from the spec: blend equation. -/
inductive blending_func where
  | ADD | SUBTRACT | REVERSE_SUBTRACT | MIN | MAX | undeclared
  deriving DecidableEq, Repr

/-! ## OpenGL tokens (values of the OpenGL 4.5 registry, `glad/glad.h`) -/

namespace gl45

/-- The value of `-1` converted to the 32-bit unsigned `GLenum`. -/
def GL_MINUS_ONE : Nat := 4294967295

def GL_TRIANGLES : Nat := 0x0004
def GL_TRIANGLE_STRIP : Nat := 0x0005
def GL_TRIANGLE_FAN : Nat := 0x0006

def GL_BYTE : Nat := 0x1400
def GL_UNSIGNED_BYTE : Nat := 0x1401
def GL_SHORT : Nat := 0x1402
def GL_UNSIGNED_SHORT : Nat := 0x1403
def GL_INT : Nat := 0x1404
def GL_UNSIGNED_INT : Nat := 0x1405
def GL_FLOAT : Nat := 0x1406
def GL_DOUBLE : Nat := 0x140A

def GL_SHADER_STORAGE_BUFFER : Nat := 0x90D2
def GL_UNIFORM_BUFFER : Nat := 0x8A11
def GL_ATOMIC_COUNTER_BUFFER : Nat := 0x92C0

def GL_FRONT : Nat := 0x0404
def GL_BACK : Nat := 0x0405
def GL_FRONT_AND_BACK : Nat := 0x0408

def GL_NEVER : Nat := 0x0200
def GL_LESS : Nat := 0x0201
def GL_EQUAL : Nat := 0x0202
def GL_LEQUAL : Nat := 0x0203
def GL_GREATER : Nat := 0x0204
def GL_NOTEQUAL : Nat := 0x0205
def GL_GEQUAL : Nat := 0x0206
def GL_ALWAYS : Nat := 0x0207

def GL_DEPTH_BUFFER_BIT : Nat := 0x00000100
def GL_STENCIL_BUFFER_BIT : Nat := 0x00000400
def GL_COLOR_BUFFER_BIT : Nat := 0x00004000

def GL_ZERO : Nat := 0
def GL_ONE : Nat := 1
def GL_SRC_COLOR : Nat := 0x0300
def GL_ONE_MINUS_SRC_COLOR : Nat := 0x0301
def GL_SRC_ALPHA : Nat := 0x0302
def GL_ONE_MINUS_SRC_ALPHA : Nat := 0x0303
def GL_DST_ALPHA : Nat := 0x0304
def GL_ONE_MINUS_DST_ALPHA : Nat := 0x0305
def GL_DST_COLOR : Nat := 0x0306
def GL_ONE_MINUS_DST_COLOR : Nat := 0x0307
def GL_SRC_ALPHA_SATURATE : Nat := 0x0308
def GL_CONSTANT_COLOR : Nat := 0x8001
def GL_ONE_MINUS_CONSTANT_COLOR : Nat := 0x8002
def GL_CONSTANT_ALPHA : Nat := 0x8003
def GL_ONE_MINUS_CONSTANT_ALPHA : Nat := 0x8004
def GL_SRC1_ALPHA : Nat := 0x8589
def GL_SRC1_COLOR : Nat := 0x88F9

def GL_FUNC_ADD : Nat := 0x8006
def GL_MIN : Nat := 0x8007
def GL_MAX : Nat := 0x8008
def GL_FUNC_SUBTRACT : Nat := 0x800A
def GL_FUNC_REVERSE_SUBTRACT : Nat := 0x800B

def GL_KEEP : Nat := 0x1E00
def GL_REPLACE : Nat := 0x1E01
def GL_INCR : Nat := 0x1E02
def GL_DECR : Nat := 0x1E03
def GL_INVERT : Nat := 0x150A
def GL_INCR_WRAP : Nat := 0x8507
def GL_DECR_WRAP : Nat := 0x8508

def GL_CULL_FACE : Nat := 0x0B44
def GL_DEPTH_TEST : Nat := 0x0B71
def GL_STENCIL_TEST : Nat := 0x0B90
def GL_BLEND : Nat := 0x0BE2
def GL_SCISSOR_TEST : Nat := 0x0C11

/-! ## Enum translation (`commands_impl.cpp`, lines 10-114, 226-263, 281-323) -/

def gl_draw_mode (mode : draw_mode) : Nat :=
  match mode with
  | .TRIANGLES => GL_TRIANGLES
  | .TRIANGLE_FAN => GL_TRIANGLE_FAN
  | .TRIANGLE_STRIP => GL_TRIANGLE_STRIP
  | .undeclared => GL_MINUS_ONE

def gl_index_size (type : draw_indexed_index_type) : Nat :=
  match type with
  | .UINT_32 => GL_UNSIGNED_INT
  | .UINT_16 => GL_UNSIGNED_SHORT
  | .UINT_8 => GL_UNSIGNED_BYTE
  | .undeclared => GL_MINUS_ONE

/-- The result type is `uint32_t`: the `default` branch returns `-1`, that is
`4294967295`.  The `sizeof` values are those of the OpenGL scalar types. -/
def gl_type_size (type : Nat) : Nat :=
  if type = GL_INT then 4
  else if type = GL_SHORT then 2
  else if type = GL_BYTE then 1
  else if type = GL_UNSIGNED_INT then 4
  else if type = GL_UNSIGNED_SHORT then 2
  else if type = GL_UNSIGNED_BYTE then 1
  else if type = GL_FLOAT then 4
  else if type = GL_DOUBLE then 8
  else 4294967295

def gl_buffer_attach_point (attachment : buffer_attachment_type) : Nat :=
  match attachment with
  | .SHADER_STORAGE_BLOCK => GL_SHADER_STORAGE_BUFFER
  | .SHADER_UNIFORM_BLOCK => GL_UNIFORM_BUFFER
  | .SHADER_ATOMIC_COUNTER_BLOCK => GL_ATOMIC_COUNTER_BUFFER
  | .undeclared => GL_MINUS_ONE

/-- The `default` branch takes `DISABLED` as well as the undeclared values. -/
def gl_face_cull_mode (mode : face_cull_mode) : Nat :=
  match mode with
  | .BACK => GL_BACK
  | .FRONT => GL_FRONT
  | .BOTH => GL_FRONT_AND_BACK
  | _ => GL_MINUS_ONE

def gl_depth_test_func (func : depth_test_func) : Nat :=
  match func with
  | .ALWAYS => GL_ALWAYS
  | .NEVER => GL_NEVER
  | .LESS => GL_LESS
  | .LESS_EQUAL => GL_LEQUAL
  | .GREATER => GL_GREATER
  | .GREATER_EQUAL => GL_GEQUAL
  | .EQUAL => GL_EQUAL
  | .NOT_EQUAL => GL_NOTEQUAL
  | _ => GL_MINUS_ONE

def gl_clear_mask (mode : clear_window_mode) : Nat :=
  match mode with
  | .COLOR => GL_COLOR_BUFFER_BIT
  | .DEPTH => GL_DEPTH_BUFFER_BIT
  | .STENCIL => GL_STENCIL_BUFFER_BIT
  | .COLOR_AND_DEPTH => GL_COLOR_BUFFER_BIT ||| GL_DEPTH_BUFFER_BIT
  | .COLOR_AND_STENCIL => GL_COLOR_BUFFER_BIT ||| GL_STENCIL_BUFFER_BIT
  | .DEPTH_AND_STENCIL => GL_DEPTH_BUFFER_BIT ||| GL_STENCIL_BUFFER_BIT
  | .ALL => GL_COLOR_BUFFER_BIT ||| GL_STENCIL_BUFFER_BIT ||| GL_DEPTH_BUFFER_BIT
  | .undeclared => GL_MINUS_ONE

def gl_blend_factor (factor : blending_factor) : Nat :=
  match factor with
  | .ZERO => GL_ZERO
  | .ONE => GL_ONE
  | .CONSTANT_COLOR => GL_CONSTANT_COLOR
  | .CONSTANT_ALPHA => GL_CONSTANT_ALPHA
  | .ONE_MINUS_CONSTANT_COLOR => GL_ONE_MINUS_CONSTANT_COLOR
  | .ONE_MINUS_CONSTANT_ALPHA => GL_ONE_MINUS_CONSTANT_ALPHA
  | .SOURCE_COLOR => GL_SRC_COLOR
  | .DEST_COLOR => GL_DST_COLOR
  | .ONE_MINUS_SOURCE_COLOR => GL_ONE_MINUS_SRC_COLOR
  | .ONE_MINUS_DEST_COLOR => GL_ONE_MINUS_DST_COLOR
  | .SOURCE_ALPHA => GL_SRC_ALPHA
  | .DEST_ALPHA => GL_DST_ALPHA
  | .ONE_MINUS_SOURCE_ALPHA => GL_ONE_MINUS_SRC_ALPHA
  | .ONE_MINUS_DEST_ALPHA => GL_ONE_MINUS_DST_ALPHA
  | .SOURCE_ALPHA_SATURATE => GL_SRC_ALPHA_SATURATE
  | .SECONDARY_SOURCE_COLOR => GL_SRC1_COLOR
  | .SECONDARY_SOURCE_ALPHA => GL_SRC1_ALPHA
  | .undeclared => GL_MINUS_ONE

def gl_blend_func (func : blending_func) : Nat :=
  match func with
  | .ADD => GL_FUNC_ADD
  | .SUBTRACT => GL_FUNC_SUBTRACT
  | .REVERSE_SUBTRACT => GL_FUNC_REVERSE_SUBTRACT
  | .MIN => GL_MIN
  | .MAX => GL_MAX
  | .undeclared => GL_MINUS_ONE

def gl_stencil_facing (facing : stencil_facing) : Nat :=
  match facing with
  | .FRONT => GL_FRONT
  | .BACK => GL_BACK
  | .BOTH => GL_FRONT_AND_BACK
  | .undeclared => GL_MINUS_ONE

def gl_stencil_test_func (test_func : stencil_test_func) : Nat :=
  match test_func with
  | .ALWAYS => GL_ALWAYS
  | .NEVER => GL_NEVER
  | .LESS => GL_LESS
  | .LESS_EQUAL => GL_LEQUAL
  | .GREATER => GL_GREATER
  | .GREATER_EQUAL => GL_GEQUAL
  | .EQUAL => GL_EQUAL
  | .NOT_EQUAL => GL_NOTEQUAL
  | .undeclared => GL_MINUS_ONE

def gl_stencil_test_op (stencil_op : stencil_result_op) : Nat :=
  match stencil_op with
  | .KEEP => GL_KEEP
  | .ZERO => GL_ZERO
  | .REPLACE => GL_REPLACE
  | .INCREMENT => GL_INCR
  | .INCREMENT_WRAP => GL_INCR_WRAP
  | .DECREMENT => GL_DECR
  | .DECREMENT_WRAP => GL_DECR_WRAP
  | .INVERT => GL_INVERT
  | .undeclared => GL_MINUS_ONE

end gl45

/-! ## Command records

The declarations are missing from the sources; the fields are the ones the
executors read.  Integer fields are carried by their value. -/

/-- Modelled from the spec: a stable identifier of a resource; the executors
read its `name`. -/
structure object_identifier where
  name : String
  deriving DecidableEq, Repr

/-- A floating-point value (`float` or `double`).  The executors only forward
such values, so a value is carried by its bit pattern. -/
structure fp_value where
  bits : Nat
  deriving DecidableEq, Repr

/-- Modelled from the spec: `DRAW`. -/
structure draw_command where
  vertex_specification_source : object_identifier
  mode : draw_mode
  start_vertex : Nat
  count : Nat
  instances : Nat
  start_instance : Nat
  deriving DecidableEq, Repr

/-- Modelled from the spec: `DRAW_INDEXED`.  `start_index` is the value of an
unsigned field; its width is an argument of the executor. -/
structure draw_indexed_command where
  vertex_specification_source : object_identifier
  mode : draw_mode
  index_type : draw_indexed_index_type
  start_index : Nat
  count : Nat
  instances : Nat
  vertex_index_offset : Int
  start_instance : Nat
  deriving DecidableEq, Repr

/-- Modelled from the spec: `DRAW_INDIRECT`. -/
structure draw_indirect_command where
  vertex_specification_source : object_identifier
  mode : draw_mode
  indirect_source_offset : Nat
  draw_count : Nat
  deriving DecidableEq, Repr

/-- Modelled from the spec: `DRAW_INDEXED_INDIRECT`. -/
structure draw_indexed_indirect_command where
  vertex_specification_source : object_identifier
  mode : draw_mode
  index_type : draw_indexed_index_type
  indirect_source_offset : Nat
  draw_count : Nat
  deriving DecidableEq, Repr

/-- Modelled from the spec: `BUFFER_UPLOAD`; `upload_data` is the address the
source pointer holds. -/
structure buffer_upload_command where
  buffer_identifier : object_identifier
  upload_type : buffer_upload_type
  upload_address : Nat
  upload_data : Nat
  upload_bytes : Nat
  deriving DecidableEq, Repr

/-- Modelled from the spec: `BUFFER_COPY`. -/
structure buffer_copy_command where
  source_identifier : object_identifier
  dest_identifier : object_identifier
  source_address : Nat
  dest_address : Nat
  bytes : Nat
  deriving DecidableEq, Repr

/-- Modelled from the spec: `BUFFER_ATTACH`. -/
structure buffer_attach_command where
  buffer_identifier : object_identifier
  attachment_type : buffer_attachment_type
  attachment_index : Nat
  deriving DecidableEq, Repr

/-- Modelled from the spec: `blending_config`. -/
structure blending_config where
  enabled : Bool
  constant_blend_r : fp_value
  constant_blend_g : fp_value
  constant_blend_b : fp_value
  constant_blend_a : fp_value
  rgb_equation : blending_func
  alpha_equation : blending_func
  source_blend_rgb : blending_factor
  dest_blend_rgb : blending_factor
  source_blend_alpha : blending_factor
  dest_blend_alpha : blending_factor
  deriving DecidableEq, Repr

/-- Modelled from the spec: `CONFIG_BLENDING`. -/
structure config_blending_command where
  draw_buffer_index : Nat
  config : blending_config
  deriving DecidableEq, Repr

/-- Modelled from the spec: `stencil_config`. -/
structure stencil_config where
  enabled : Bool
  test_func : stencil_test_func
  reference : Int
  test_mask : Nat
  write_mask : Nat
  stencil_fail_op : stencil_result_op
  depth_fail_op : stencil_result_op
  pixel_pass_op : stencil_result_op
  deriving DecidableEq, Repr

/-- Modelled from the spec: `CONFIG_STENCIL`. -/
structure config_stencil_command where
  for_facing : stencil_facing
  config : stencil_config
  deriving DecidableEq, Repr

/-- Modelled from the spec: `scissor_config`. -/
structure scissor_test_config where
  enabled : Bool
  left : Int
  bottom : Int
  width : Int
  height : Int
  deriving DecidableEq, Repr

/-- Modelled from the spec: `CONFIG_SCISSOR`. -/
structure config_scissor_command where
  viewport_index : Nat
  config : scissor_test_config
  deriving DecidableEq, Repr

/-- Modelled from the spec: `CONFIG_FACE_CULL`. -/
structure config_face_cull_command where
  mode : face_cull_mode
  deriving DecidableEq, Repr

/-- Modelled from the spec: `depth_test_config`. -/
structure depth_test_config where
  enabled : Bool
  test_func : depth_test_func
  enable_depth_write : Bool
  deriving DecidableEq, Repr

/-- Modelled from the spec: `CONFIG_DEPTH_TEST`. -/
structure config_depth_test_command where
  config : depth_test_config
  deriving DecidableEq, Repr

/-- Modelled from the spec: `CONFIG_DEPTH_RANGE`. -/
structure config_depth_range_command where
  viewport_index : Nat
  near : fp_value
  far : fp_value
  deriving DecidableEq, Repr

/-- Modelled from the spec: `clear_values_config`. -/
structure clear_values_config where
  color_r : fp_value
  color_g : fp_value
  color_b : fp_value
  color_a : fp_value
  depth : fp_value
  stencil : Int
  deriving DecidableEq, Repr

/-- Modelled from the spec: `CLEAR_WINDOW`. -/
structure clear_window_command where
  mode : clear_window_mode
  config : clear_values_config
  deriving DecidableEq, Repr

/-! ## Shader front-end (`api/slang.cpp`)

The compiler library (Slang) is outside the repository: what it answers to the
calls of one operation is an argument of that operation.  A handle is a
number and `none` is `nullptr`.  An operation returns its status and the state
it leaves; it returns `none` when it dereferences a null or a dangling pointer
(no status is returned then). -/

/-- Modelled from the spec: the declaration of `graphics_api` is missing
(`types.hpp`); `GL45` is the enumerator `get_target_index_for_api` names and
`other` stands for any other value. -/
inductive graphics_api where
  | GL45 | other
  deriving DecidableEq, Repr

def get_target_index_for_api (api : graphics_api) : Int :=
  match api with
  | .GL45 => 0
  | .other => -1

/-- The macro `SLANG_FAILED` of `slang.h`: a result code fails when it is
negative. -/
def SLANG_FAILED (result : Int) : Bool := decide (result < 0)

/-- The output artifact of `slang.hpp`: `data` is the content of the buffer
the pointer refers to, `data_size` is a `uint32_t`. -/
structure shader_data where
  data : List Nat
  data_size : Nat
  deriving DecidableEq, Repr

/-- The four static variables of `slang.cpp`, and `live_sessions`: the sessions
the library has created and that were not torn down since (state of the
library; it tells a live session from a dangling pointer).  The maps are
association lists with unique keys. -/
structure slang_state where
  global_slang_context : Option Nat
  active_slang_session : Option Nat
  loaded_modules : List (String × Nat)
  linked_shaders : List (String × Option Nat)
  live_sessions : List Nat
  deriving DecidableEq, Repr

/-- The state at program start: the statics are zero-initialised. -/
def slang_state.initial : slang_state := ⟨none, none, [], [], []⟩

/-- The assignment `map[key] = value` of `std::unordered_map`: the entry of
`key` is replaced, or added when there is none. -/
def map_assign {α : Type} (m : List (String × α)) (key : String) (value : α) :
    List (String × α) :=
  match m with
  | [] => [(key, value)]
  | (k, v) :: rest =>
    if k = key then (key, value) :: rest else (k, v) :: map_assign rest key value

/-- What the library answers during one `init_slang_session`: the result of
`createGlobalSession` and the context it writes, the result of `release` on
the previous session, the result of `createSession` and the session it
writes. -/
structure init_answers where
  createGlobalSession_result : Int
  createGlobalSession_context : Nat
  release_result : Int
  createSession_result : Int
  createSession_session : Nat
  deriving DecidableEq, Repr

/-- Lines 48-87 of `init_slang_session`: the session description is built and
`createSession` is called; on success the new session becomes the active
one. -/
def init_slang_session.create_session (lib : init_answers) (st : slang_state) :
    Option (status × slang_state) :=
  if SLANG_FAILED lib.createSession_result then
    some (⟨status_type.BACKEND_FAILURE, "Slang session creation failed"⟩, st)
  else
    some (status.of_type status_type.SUCCESS,
      ⟨st.global_slang_context, some lib.createSession_session, st.loaded_modules,
        st.linked_shaders, lib.createSession_session :: st.live_sessions⟩)

/-- Lines 38-46 of `init_slang_session`: a previous session is released and
deleted and `loaded_modules` is cleared (`linked_shaders` is not touched, and
the pointer `active_slang_session` keeps its value); releasing a session that
is not live is a use after free. -/
def init_slang_session.replace_session (lib : init_answers) (st : slang_state) :
    Option (status × slang_state) :=
  match st.active_slang_session with
  | none => init_slang_session.create_session lib st
  | some session =>
    if session ∈ st.live_sessions then
      let torn_down : slang_state :=
        ⟨st.global_slang_context, some session, [], st.linked_shaders,
          st.live_sessions.erase session⟩
      if SLANG_FAILED lib.release_result then
        some (⟨status_type.BACKEND_FAILURE, "Deleting previous slang session failed"⟩,
          torn_down)
      else init_slang_session.create_session lib torn_down
    else none

def init_slang_session (lib : init_answers) (st : slang_state) :
    Option (status × slang_state) :=
  match st.global_slang_context with
  | none =>
    if SLANG_FAILED lib.createGlobalSession_result then
      some (⟨status_type.BACKEND_FAILURE, "Slang context creation failed"⟩, st)
    else
      init_slang_session.replace_session lib
        ⟨some lib.createGlobalSession_context, st.active_slang_session, st.loaded_modules,
          st.linked_shaders, st.live_sessions⟩
  | some _ => init_slang_session.replace_session lib st

/-- What the library answers to `loadModuleFromSourceString`: the module
handle it returns and the diagnostics blob it writes, read as a C string. -/
structure load_answers where
  module_handle : Option Nat
  diagnostics : Option String
  deriving DecidableEq, Repr

/-- The source text is only handed to the library.  With no diagnostics and no
module, line 104 reads the null diagnostics blob. -/
def load_slang_module (lib : load_answers) (st : slang_state) (name _source : String) :
    Option (status × slang_state) :=
  match st.active_slang_session with
  | none => none
  | some session =>
    if session ∈ st.live_sessions then
      match lib.diagnostics with
      | some msg =>
        some (⟨status_type.BACKEND_FAILURE,
          "Slang module loading \x27" ++ name ++ "\x27 failed with error: \x27" ++ msg ++
            "\x27"⟩, st)
      | none =>
        match lib.module_handle with
        | none => none
        | some loaded =>
          some (status.of_type status_type.SUCCESS,
            ⟨st.global_slang_context, st.active_slang_session,
              map_assign st.loaded_modules name loaded, st.linked_shaders,
              st.live_sessions⟩)
    else none

/-- What the library answers during one `link_slang_shader`: the result of
`findEntryPointByName`, the composite and the diagnostics of
`createCompositeComponentType`, the program and the diagnostics of `link`. -/
structure link_answers where
  findEntryPointByName_result : Int
  composite : Option Nat
  composite_diagnostics : Option String
  linked_program : Option Nat
  link_diagnostics : Option String
  deriving DecidableEq, Repr

/-- The loop of lines 128-133: the handles of the additional modules, in
order, or the name of the first one that is not loaded. -/
def additional_components (loaded_modules : List (String × Nat)) :
    List String → Except String (List Nat)
  | [] => Except.ok []
  | module_name :: rest =>
    match loaded_modules.lookup module_name with
    | none => Except.error module_name
    | some additional_module =>
      match additional_components loaded_modules rest with
      | Except.error missing => Except.error missing
      | Except.ok components => Except.ok (additional_module :: components)

/-- The message `std::format("No loaded slang module called '{0}' found.", name)`. -/
def unknown_module_message (name : String) : String :=
  "No loaded slang module called \x27" ++ name ++ "\x27 found."

/-- The message
`std::format("Slang shader linking for '{1}' failed with error: '{0}'", msg, name)`. -/
def link_failure_message (msg shader_name : String) : String :=
  "Slang shader linking for \x27" ++ shader_name ++ "\x27 failed with error: \x27" ++ msg ++
    "\x27"

def link_slang_shader (lib : link_answers) (st : slang_state)
    (shader_name entry_point_module entry_point_name : String)
    (additional_modules : List String) : Option (status × slang_state) :=
  match st.loaded_modules.lookup entry_point_module with
  | none => some (⟨status_type.UNKNOWN_NAME, unknown_module_message entry_point_module⟩, st)
  | some _ =>
    if SLANG_FAILED lib.findEntryPointByName_result then
      some (⟨status_type.BACKEND_FAILURE,
        "Couldn\x27t find entry point named \x27" ++ entry_point_name ++ "\x27 in module \x27" ++
          entry_point_module ++ "\x27"⟩, st)
    else
      match additional_components st.loaded_modules additional_modules with
      | Except.error module_name =>
        some (⟨status_type.UNKNOWN_NAME, unknown_module_message module_name⟩, st)
      | Except.ok _ =>
        match st.active_slang_session with
        | none => none
        | some session =>
          if session ∈ st.live_sessions then
            match lib.composite_diagnostics with
            | some msg =>
              some (⟨status_type.BACKEND_FAILURE, link_failure_message msg shader_name⟩, st)
            | none =>
              match lib.composite with
              | none => none
              | some _ =>
                match lib.link_diagnostics with
                | some msg =>
                  some (⟨status_type.BACKEND_FAILURE, link_failure_message msg shader_name⟩,
                    st)
                | none =>
                  some (status.of_type status_type.SUCCESS,
                    ⟨st.global_slang_context, st.active_slang_session, st.loaded_modules,
                      map_assign st.linked_shaders shader_name lib.linked_program,
                      st.live_sessions⟩)
          else none

/-- What the library answers during one `get_shader_data`: the code blob and
the diagnostics of `getEntryPointCode`, and the diagnostics of `getLayout`. -/
structure artifact_answers where
  shader_blob : Option (List Nat)
  code_diagnostics : Option String
  layout_diagnostics : Option String
  deriving DecidableEq, Repr

/-- The result is the status and the value of `out_shader_data` at return.
`data_size` is a `uint32_t`, so the blob size is reduced modulo `2 ^ 32`;
`malloc` is taken to succeed. -/
def get_shader_data (lib : artifact_answers) (st : slang_state) (shader_name : String)
    (api : graphics_api) (out_shader_data : shader_data) : Option (status × shader_data) :=
  match st.linked_shaders.lookup shader_name with
  | none =>
    some (⟨status_type.UNKNOWN_NAME,
      "No linked slang shader called \x27" ++ shader_name ++ "\x27 exists."⟩, out_shader_data)
  | some linked_shader =>
    let target_index := get_target_index_for_api api
    if target_index = -1 then
      some (⟨status_type.UNSUPPORTED,
        "API selected is not currently supported for slang shaders"⟩, out_shader_data)
    else
      match linked_shader with
      | none => none
      | some _ =>
        match lib.code_diagnostics with
        | some msg =>
          some (⟨status_type.BACKEND_FAILURE,
            "Slang shader data for \x27" ++ shader_name ++ "\x27 failed with error: \x27" ++
              msg ++ "\x27"⟩, out_shader_data)
        | none =>
          match lib.shader_blob with
          | none => none
          | some blob =>
            let data_size := blob.length % 2 ^ 32
            let written : shader_data := ⟨blob.take data_size, data_size⟩
            match lib.layout_diagnostics with
            | some msg =>
              some (⟨status_type.BACKEND_FAILURE,
                "Slang shader layout for \x27" ++ shader_name ++
                  "\x27 failed with error: \x27" ++ msg ++ "\x27"⟩, written)
            | none => some (status.of_type status_type.SUCCESS, written)

/-- The states the front-end can be in: the state at program start, and every
state an operation that returned leaves, whatever the library answered. -/
inductive reachable : slang_state → Prop where
  | initial : reachable slang_state.initial
  | init (lib : init_answers) (st st' : slang_state) (s : status) :
    reachable st → init_slang_session lib st = some (s, st') → reachable st'
  | load (lib : load_answers) (st st' : slang_state) (name source : String) (s : status) :
    reachable st → load_slang_module lib st name source = some (s, st') → reachable st'
  | link (lib : link_answers) (st st' : slang_state)
      (shader_name entry_point_module entry_point_name : String)
      (additional_modules : List String) (s : status) :
    reachable st →
    link_slang_shader lib st shader_name entry_point_module entry_point_name
      additional_modules = some (s, st') →
    reachable st'

/-! ## Vulkan device: memory type selection (`vk13/Device.cpp`) -/

namespace vk13

/-- The test of the loop body, `(type_filter & (1 << i)) &&
(propertyFlags & properties) == properties`.  `1 << i` is an `int`; for
`i ≤ 31` its conversion to `uint32_t` is `2 ^ i` (the shift is undefined from
32 on, which a device with at most 32 memory types does not reach). -/
def memory_type_matches (type_filter properties i propertyFlags : Nat) : Bool :=
  (type_filter &&& ((1 <<< i) % 2 ^ 32) != 0) && ((propertyFlags &&& properties) == properties)

/-- The loop of `Device::find_memory_type` from index `i` on, over the property
flags of the memory types that remain; `Except.error` is the
`std::runtime_error` thrown after the loop. -/
def find_memory_type.loop (type_filter properties : Nat) : List Nat → Nat → Except String Nat
  | [], _ => Except.error "Failed to find suitable memory types"
  | propertyFlags :: rest, i =>
    if memory_type_matches type_filter properties i propertyFlags then Except.ok i
    else find_memory_type.loop type_filter properties rest (i + 1)

/-- `Device::find_memory_type` (`vk13/Device.cpp`, lines 398-409); `memoryTypes`
holds the `propertyFlags` of the `memoryTypeCount` memory types that
`vkGetPhysicalDeviceMemoryProperties` reports. -/
def find_memory_type (type_filter properties : Nat) (memoryTypes : List Nat) :
    Except String Nat :=
  find_memory_type.loop type_filter properties memoryTypes 0

/-- The index `i` is below the memory-type count, bit `i` of `type_filter` is
set, and the property flags of type `i` contain every required flag. -/
def suitable_memory_type (type_filter properties : Nat) (memoryTypes : List Nat) (i : Nat) :
    Prop :=
  ∃ propertyFlags, memoryTypes[i]? = some propertyFlags ∧ type_filter.testBit i = true ∧
    ∀ b, properties.testBit b = true → propertyFlags.testBit b = true

end vk13

namespace gl45

/-! ## Buffer registry and backend -/

/-- Modelled from the spec: a buffer state entry of the registry (the class is
missing from the sources): the GPU id, the byte size and the validity bit. -/
structure buffer_state where
  gl_id : Nat
  size : Nat
  valid : Bool
  deriving DecidableEq, Repr

/-- Modelled from the spec: `validate(state)`, the validity bit. -/
def buffer_state.is_valid (b : buffer_state) : Bool := b.valid

/-- Modelled from the spec: `is_in_range(address, bytes)` is
`address + bytes ≤ size`, the sum taken in wide arithmetic. -/
def buffer_state.is_in_buffer_range (b : buffer_state) (address bytes : Nat) : Bool :=
  decide (address + bytes ≤ b.size)

/-- One call the executor makes on a collaborator: an OpenGL entry point, the
vertex specification provider, or an operation of a buffer state entry (whose
first argument is the entry it is called on). -/
inductive backend_call where
  | glEnablei (cap index : Nat)
  | glDisablei (cap index : Nat)
  | glDrawArraysInstancedBaseInstance (mode first count instancecount baseinstance : Nat)
  | glDrawElementsInstancedBaseVertexBaseInstance
      (mode count type indices instancecount : Nat) (basevertex : Int) (baseinstance : Nat)
  | glMultiDrawArraysIndirect (mode indirect drawcount stride : Nat)
  | glMultiDrawElementsIndirect (mode type indirect drawcount stride : Nat)
  | glBlendColor (red green blue alpha : fp_value)
  | glBlendEquationSeparatei (buf modeRGB modeAlpha : Nat)
  | glBlendFuncSeparatei (buf srcRGB dstRGB srcAlpha dstAlpha : Nat)
  | glStencilFuncSeparate (face func : Nat) (ref : Int) (mask : Nat)
  | glStencilMaskSeparate (face mask : Nat)
  | glStencilOpSeparate (face sfail dpfail dppass : Nat)
  | glScissorIndexed (index : Nat) (left bottom width height : Int)
  | glCullFace (mode : Nat)
  | glDepthFunc (func : Nat)
  | glDepthMask (flag : Bool)
  | glDepthRangeIndexed (index : Nat) (n f : fp_value)
  | glClearColor (red green blue alpha : fp_value)
  | glClearDepth (depth : fp_value)
  | glClearStencil (s : Int)
  | glClear (mask : Nat)
  | bind_vertex_specification_state (source : object_identifier) (needs_indices : Bool)
  | upload_data_direct (self : buffer_state) (address data bytes : Nat)
  | upload_data_staged (self : buffer_state) (address data bytes : Nat)
  | upload_data_temp_copy (self : buffer_state) (address data bytes : Nat)
  | copy_data (self : buffer_state) (source_gl_id source_address dest_address bytes : Nat)
  | bind_to_slot (self : buffer_state) (target index : Nat)
  deriving DecidableEq, Repr

/-- The part of `gl45_impl` the executors use and `commands_impl.cpp` does not
define: the registered buffers, the vertex specification provider (its status
and the index offset it writes) and the statuses of the buffer operations. -/
structure gl45_impl where
  buffers : List (String × buffer_state)
  bind_vertex_specification_state : object_identifier → Bool → status × Nat
  upload_data_direct : buffer_state → Nat → Nat → Nat → status
  upload_data_staged : buffer_state → Nat → Nat → Nat → status
  upload_data_temp_copy : buffer_state → Nat → Nat → Nat → status
  copy_data : buffer_state → Nat → Nat → Nat → Nat → status
  bind_to_slot : buffer_state → Nat → Nat → status

/-- Modelled from the spec: `lookup(id)`, the registered state of the
identifier or nothing (`nullptr`). -/
def gl45_impl.find_gl_buffer_state (impl : gl45_impl) (identifier : object_identifier) :
    Option buffer_state :=
  impl.buffers.lookup identifier.name

/-- A predicate on calls: the registry operations (upload, copy, bind-to-slot). -/
def backend_call.is_registry_operation : backend_call → Bool
  | .upload_data_direct .. => true
  | .upload_data_staged .. => true
  | .upload_data_temp_copy .. => true
  | .copy_data .. => true
  | .bind_to_slot .. => true
  | _ => false

/-- A predicate on calls: the draw entry points. -/
def backend_call.is_draw : backend_call → Bool
  | .glDrawArraysInstancedBaseInstance .. => true
  | .glDrawElementsInstancedBaseVertexBaseInstance .. => true
  | .glMultiDrawArraysIndirect .. => true
  | .glMultiDrawElementsIndirect .. => true
  | _ => false

/-! ## Executors (`commands_impl.cpp`, lines 62-72 and 116-406)

An executor returns its status and the calls it made, in order. -/

/-- Source `gl_set_flag(flag, enable, index = 0)`: the default argument is
written out at the call sites that omit it. -/
def gl_set_flag (flag : Nat) (enable : Bool) (index : Nat) : List backend_call :=
  if enable then [backend_call.glEnablei flag index]
  else [backend_call.glDisablei flag index]

def execute_draw_cmd (impl : gl45_impl) (cmd : draw_command) : status × List backend_call :=
  let bound := impl.bind_vertex_specification_state cmd.vertex_specification_source false
  let bind_result := bound.1
  let log := [backend_call.bind_vertex_specification_state cmd.vertex_specification_source false]
  if is_error_status bind_result then (bind_result, log)
  else
    (status.of_type status_type.SUCCESS,
      log ++ [backend_call.glDrawArraysInstancedBaseInstance (gl_draw_mode cmd.mode)
        cmd.start_vertex cmd.count cmd.instances cmd.start_instance])

/-- The pointer argument of the indexed draw,
`cmd->start_index * index_element_size + index_offset`.
`index_element_size` is a `uint32_t`, so the product is taken in the unsigned
type of `max start_index_bits 32` bits, where `start_index_bits` is the width
of the field `start_index` (8, 16, 32 or 64; its declaration is missing); the
sum with the 64-bit `index_offset` becomes a 64-bit pointer. -/
def index_pointer (start_index_bits start_index index_element_size index_offset : Nat) : Nat :=
  ((start_index * index_element_size) % 2 ^ (max start_index_bits 32) + index_offset) % 2 ^ 64

/-- The argument `start_index_bits` is the width of the field `start_index`,
see `index_pointer`. -/
def execute_draw_indexed (start_index_bits : Nat) (impl : gl45_impl)
    (cmd : draw_indexed_command) : status × List backend_call :=
  let bound := impl.bind_vertex_specification_state cmd.vertex_specification_source true
  let bind_result := bound.1
  let index_offset := bound.2
  let log := [backend_call.bind_vertex_specification_state cmd.vertex_specification_source true]
  if is_error_status bind_result then (bind_result, log)
  else
    let index_element_type := gl_index_size cmd.index_type
    let index_element_size := gl_type_size index_element_type
    (status.of_type status_type.SUCCESS,
      log ++ [backend_call.glDrawElementsInstancedBaseVertexBaseInstance (gl_draw_mode cmd.mode)
        cmd.count index_element_type
        (index_pointer start_index_bits cmd.start_index index_element_size index_offset)
        cmd.instances cmd.vertex_index_offset cmd.start_instance])

/-- Modelled from the spec: `sizeof(draw_arrays_indirect_params)`, the record
of four 32-bit words `glMultiDrawArraysIndirect` reads. -/
def sizeof_draw_arrays_indirect_params : Nat := 16

/-- Modelled from the spec: `sizeof(draw_elements_indirect_params)`, the
record of five 32-bit words `glMultiDrawElementsIndirect` reads. -/
def sizeof_draw_elements_indirect_params : Nat := 20

def execute_draw_indirect (impl : gl45_impl) (cmd : draw_indirect_command) :
    status × List backend_call :=
  let bound := impl.bind_vertex_specification_state cmd.vertex_specification_source false
  let bind_result := bound.1
  let log := [backend_call.bind_vertex_specification_state cmd.vertex_specification_source false]
  if is_error_status bind_result then (bind_result, log)
  else
    (status.of_type status_type.SUCCESS,
      log ++ [backend_call.glMultiDrawArraysIndirect (gl_draw_mode cmd.mode)
        ((cmd.indirect_source_offset * sizeof_draw_arrays_indirect_params) % 2 ^ 64)
        cmd.draw_count 0])

def execute_draw_indexed_indirect (impl : gl45_impl) (cmd : draw_indexed_indirect_command) :
    status × List backend_call :=
  let bound := impl.bind_vertex_specification_state cmd.vertex_specification_source true
  let bind_result := bound.1
  let log := [backend_call.bind_vertex_specification_state cmd.vertex_specification_source true]
  if is_error_status bind_result then (bind_result, log)
  else
    let index_element_type := gl_index_size cmd.index_type
    (status.of_type status_type.SUCCESS,
      log ++ [backend_call.glMultiDrawElementsIndirect (gl_draw_mode cmd.mode)
        index_element_type
        ((cmd.indirect_source_offset * sizeof_draw_elements_indirect_params) % 2 ^ 64)
        cmd.draw_count 0])

/-- The message `std::format("No buffer with name '{0}' in pipeline", name)`. -/
def unknown_buffer_message (name : String) : String :=
  "No buffer with name \x27" ++ name ++ "\x27 in pipeline"

/-- The message `std::format("Buffer '{0}' is in an invalid state", name)`. -/
def invalid_buffer_message (name : String) : String :=
  "Buffer \x27" ++ name ++ "\x27 is in an invalid state"

/-- The message
`std::format("Requested copy range is out of range in buffer '{0}'", name)`. -/
def copy_range_message (name : String) : String :=
  "Requested copy range is out of range in buffer \x27" ++ name ++ "\x27"

def execute_buffer_upload (impl : gl45_impl) (cmd : buffer_upload_command) :
    status × List backend_call :=
  match impl.find_gl_buffer_state cmd.buffer_identifier with
  | none =>
    (⟨status_type.UNKNOWN_SOURCE, unknown_buffer_message cmd.buffer_identifier.name⟩, [])
  | some buffer_state =>
    if !buffer_state.is_valid then
      (⟨status_type.BROKEN_SOURCE, invalid_buffer_message cmd.buffer_identifier.name⟩, [])
    else
      match cmd.upload_type with
      | .UNSAFE_DIRECT =>
        (impl.upload_data_direct buffer_state cmd.upload_address cmd.upload_data cmd.upload_bytes,
          [backend_call.upload_data_direct buffer_state cmd.upload_address cmd.upload_data
            cmd.upload_bytes])
      | .SAFE_STREAMING =>
        (impl.upload_data_staged buffer_state cmd.upload_address cmd.upload_data cmd.upload_bytes,
          [backend_call.upload_data_staged buffer_state cmd.upload_address cmd.upload_data
            cmd.upload_bytes])
      | .SAFE_ONE_TIME =>
        (impl.upload_data_temp_copy buffer_state cmd.upload_address cmd.upload_data
            cmd.upload_bytes,
          [backend_call.upload_data_temp_copy buffer_state cmd.upload_address cmd.upload_data
            cmd.upload_bytes])
      | .undeclared => (⟨status_type.UNSUPPORTED, "Uknowmn buffer upload type"⟩, [])

def execute_buffer_copy (impl : gl45_impl) (cmd : buffer_copy_command) :
    status × List backend_call :=
  match impl.find_gl_buffer_state cmd.source_identifier with
  | none =>
    (⟨status_type.UNKNOWN_SOURCE, unknown_buffer_message cmd.source_identifier.name⟩, [])
  | some source_state =>
    if !source_state.is_valid then
      (⟨status_type.BROKEN_SOURCE, invalid_buffer_message cmd.source_identifier.name⟩, [])
    else
      match impl.find_gl_buffer_state cmd.dest_identifier with
      | none =>
        (⟨status_type.UNKNOWN_SOURCE, unknown_buffer_message cmd.dest_identifier.name⟩, [])
      | some dest_state =>
        if !dest_state.is_valid then
          (⟨status_type.BROKEN_SOURCE, invalid_buffer_message cmd.dest_identifier.name⟩, [])
        else if !source_state.is_in_buffer_range cmd.source_address cmd.bytes then
          (⟨status_type.RANGE_OVERFLOW, copy_range_message cmd.source_identifier.name⟩, [])
        else if !dest_state.is_in_buffer_range cmd.dest_address cmd.bytes then
          (⟨status_type.RANGE_OVERFLOW, copy_range_message cmd.dest_identifier.name⟩, [])
        else
          (impl.copy_data dest_state source_state.gl_id cmd.source_address cmd.dest_address
              cmd.bytes,
            [backend_call.copy_data dest_state source_state.gl_id cmd.source_address
              cmd.dest_address cmd.bytes])

def execute_buffer_attach (impl : gl45_impl) (cmd : buffer_attach_command) :
    status × List backend_call :=
  match impl.find_gl_buffer_state cmd.buffer_identifier with
  | none =>
    (⟨status_type.UNKNOWN_SOURCE, unknown_buffer_message cmd.buffer_identifier.name⟩, [])
  | some buffer_state =>
    if !buffer_state.is_valid then
      (⟨status_type.BROKEN_SOURCE, invalid_buffer_message cmd.buffer_identifier.name⟩, [])
    else
      (impl.bind_to_slot buffer_state (gl_buffer_attach_point cmd.attachment_type)
          cmd.attachment_index,
        [backend_call.bind_to_slot buffer_state (gl_buffer_attach_point cmd.attachment_type)
          cmd.attachment_index])

def execute_config_blending (cmd : config_blending_command) : status × List backend_call :=
  let config := cmd.config
  let log := gl_set_flag GL_BLEND config.enabled 0
  if !config.enabled then (status.of_type status_type.SUCCESS, log)
  else
    (status.of_type status_type.SUCCESS,
      log ++
      [backend_call.glBlendColor config.constant_blend_r config.constant_blend_g
          config.constant_blend_b config.constant_blend_a,
        backend_call.glBlendEquationSeparatei cmd.draw_buffer_index
          (gl_blend_func config.rgb_equation) (gl_blend_func config.alpha_equation),
        backend_call.glBlendFuncSeparatei cmd.draw_buffer_index
          (gl_blend_factor config.source_blend_rgb) (gl_blend_factor config.dest_blend_rgb)
          (gl_blend_factor config.source_blend_alpha) (gl_blend_factor config.dest_blend_alpha)])

def execute_config_stencil (cmd : config_stencil_command) : status × List backend_call :=
  let config := cmd.config
  let log := gl_set_flag GL_STENCIL_TEST config.enabled 0
  if !config.enabled then (status.of_type status_type.SUCCESS, log)
  else
    let gl_facing := gl_stencil_facing cmd.for_facing
    (status.of_type status_type.SUCCESS,
      log ++
      [backend_call.glStencilFuncSeparate gl_facing (gl_stencil_test_func config.test_func)
          config.reference config.test_mask,
        backend_call.glStencilMaskSeparate gl_facing config.write_mask,
        backend_call.glStencilOpSeparate gl_facing (gl_stencil_test_op config.stencil_fail_op)
          (gl_stencil_test_op config.depth_fail_op) (gl_stencil_test_op config.pixel_pass_op)])

def execute_config_scissor (cmd : config_scissor_command) : status × List backend_call :=
  let config := cmd.config
  let log := gl_set_flag GL_STENCIL_TEST config.enabled cmd.viewport_index
  if !config.enabled then (status.of_type status_type.SUCCESS, log)
  else
    (status.of_type status_type.SUCCESS,
      log ++ [backend_call.glScissorIndexed cmd.viewport_index config.left config.bottom
        config.width config.height])

def execute_config_face_cull (cmd : config_face_cull_command) : status × List backend_call :=
  if cmd.mode = face_cull_mode.DISABLED then
    (status.of_type status_type.SUCCESS, gl_set_flag GL_CULL_FACE false 0)
  else
    (status.of_type status_type.SUCCESS,
      gl_set_flag GL_CULL_FACE true 0 ++ [backend_call.glCullFace (gl_face_cull_mode cmd.mode)])

def execute_config_depth_test (cmd : config_depth_test_command) : status × List backend_call :=
  let config := cmd.config
  let log := gl_set_flag GL_DEPTH_TEST config.enabled 0
  if !config.enabled then (status.of_type status_type.SUCCESS, log)
  else
    (status.of_type status_type.SUCCESS,
      log ++ [backend_call.glDepthFunc (gl_depth_test_func config.test_func),
        backend_call.glDepthMask config.enable_depth_write])

def execute_config_depth_range (cmd : config_depth_range_command) : status × List backend_call :=
  (status.of_type status_type.SUCCESS,
    [backend_call.glDepthRangeIndexed cmd.viewport_index cmd.near cmd.far])

def execute_clear_window (cmd : clear_window_command) : status × List backend_call :=
  let config := cmd.config
  (status.of_type status_type.SUCCESS,
    [backend_call.glClearColor config.color_r config.color_g config.color_b config.color_a,
      backend_call.glClearDepth config.depth,
      backend_call.glClearStencil config.stencil,
      backend_call.glClear (gl_clear_mask cmd.mode)])

/-! ## The registry upload operations -/

/-- Modelled from the spec: one write of `bytes` bytes, read at the address
`data`, into the GPU buffer `gl_id` at `address`. -/
structure buffer_write where
  gl_id : Nat
  address : Nat
  data : Nat
  bytes : Nat
  deriving DecidableEq, Repr

/-- Modelled from the spec: the upload operations of a buffer state entry
(`upload_data_direct`, `upload_data_staged`, `upload_data_temp_copy`) are
missing from the sources.  By the spec each of the three disciplines answers
a range that is not `is_in_range` with `RANGE_OVERFLOW`, issuing nothing;
otherwise it issues the write, and fails with `BACKEND_FAILURE` when the
device reports an error (`device_ok = false`).  The result is the status and
the writes issued. -/
def buffer_state.upload_data (self : buffer_state) (device_ok : Bool)
    (address data bytes : Nat) : status × List buffer_write :=
  if !self.is_in_buffer_range address bytes then
    (status.of_type status_type.RANGE_OVERFLOW, [])
  else if device_ok then
    (status.of_type status_type.SUCCESS, [⟨self.gl_id, address, data, bytes⟩])
  else
    (status.of_type status_type.BACKEND_FAILURE, [⟨self.gl_id, address, data, bytes⟩])

/-- Modelled from the spec: `impl` with its three upload operations taken
from `buffer_state.upload_data`. -/
def gl45_impl.with_registry_uploads (impl : gl45_impl) (device_ok : Bool) : gl45_impl :=
  ⟨impl.buffers, impl.bind_vertex_specification_state,
    fun self address data bytes => (self.upload_data device_ok address data bytes).1,
    fun self address data bytes => (self.upload_data device_ok address data bytes).1,
    fun self address data bytes => (self.upload_data device_ok address data bytes).1,
    impl.copy_data, impl.bind_to_slot⟩

/-- Modelled from the spec: the writes an upload operation issues once the
executor has called it (no write for the other calls). -/
def backend_call.buffer_writes (device_ok : Bool) : backend_call → List buffer_write
  | .upload_data_direct self address data bytes =>
    (self.upload_data device_ok address data bytes).2
  | .upload_data_staged self address data bytes =>
    (self.upload_data device_ok address data bytes).2
  | .upload_data_temp_copy self address data bytes =>
    (self.upload_data device_ok address data bytes).2
  | _ => []

/-- The writes issued by the calls of a log, in order. -/
def issued_writes (device_ok : Bool) : List backend_call → List buffer_write
  | [] => []
  | c :: rest => c.buffer_writes device_ok ++ issued_writes device_ok rest

/-! ## A mock backend for concrete runs -/

/-- A mock `gl45_impl`: the given registry, a vertex specification provider
that reports `bind_result` and `index_offset`, and buffer operations that all
report `SUCCESS`. -/
def mock_impl (buffers : List (String × buffer_state)) (bind_result : status)
    (index_offset : Nat) : gl45_impl :=
  ⟨buffers, fun _ _ => (bind_result, index_offset),
    fun _ _ _ _ => status.of_type status_type.SUCCESS,
    fun _ _ _ _ => status.of_type status_type.SUCCESS,
    fun _ _ _ _ => status.of_type status_type.SUCCESS,
    fun _ _ _ _ _ => status.of_type status_type.SUCCESS,
    fun _ _ _ => status.of_type status_type.SUCCESS⟩

/-- The text `needle` occurs in `text`. -/
def message_contains (text needle : String) : Prop :=
  ∃ before after : String, text = before ++ needle ++ after

/-- The executor stopped with kind `k` and a message that contains `name`,
having made no call at all (so no upload, copy or bind-to-slot). -/
def rejected_naming (r : status × List backend_call) (k : status_type) (name : String) : Prop :=
  r.1.kind = k ∧ message_contains r.1.message name ∧ r.2 = []

/-- The shape of a run of a draw executor whose bind reported `s`: the bind
call with the flag `needs_indices` comes first; when `s` is an error it is the
only call and `s` is returned as it is; otherwise exactly one more call
follows, a draw call, and the status is `SUCCESS`. -/
def binds_then_draws (r : status × List backend_call) (s : status)
    (source : object_identifier) (needs_indices : Bool) : Prop :=
  (is_error_status s = true →
    r = (s, [backend_call.bind_vertex_specification_state source needs_indices])) ∧
  (is_error_status s = false →
    ∃ d : backend_call, d.is_draw = true ∧
      r = (status.of_type status_type.SUCCESS,
        [backend_call.bind_vertex_specification_state source needs_indices, d]))

/-! ## The checks of a buffer copy, as an ordered list -/

/-- The six checks of a buffer copy. -/
inductive copy_check where
  | source_registered
  | source_valid
  | dest_registered
  | dest_valid
  | source_range
  | dest_range
  deriving DecidableEq, Repr

/-- The order in which the checks are made. -/
def copy_check.in_order : List copy_check :=
  [copy_check.source_registered, copy_check.source_valid, copy_check.dest_registered,
    copy_check.dest_valid, copy_check.source_range, copy_check.dest_range]

/-- Whether a check fails for a command, each check taken on its own: a buffer
that is not registered fails the registration check only; a registered buffer
fails the validity check when its validity bit is false and the range check
when `address + bytes` exceeds its size. -/
def copy_check.fails (impl : gl45_impl) (cmd : buffer_copy_command) : copy_check → Bool
  | .source_registered => (impl.find_gl_buffer_state cmd.source_identifier).isNone
  | .source_valid =>
    match impl.find_gl_buffer_state cmd.source_identifier with
    | some b => !b.valid
    | none => false
  | .dest_registered => (impl.find_gl_buffer_state cmd.dest_identifier).isNone
  | .dest_valid =>
    match impl.find_gl_buffer_state cmd.dest_identifier with
    | some b => !b.valid
    | none => false
  | .source_range =>
    match impl.find_gl_buffer_state cmd.source_identifier with
    | some b => decide (b.size < cmd.source_address + cmd.bytes)
    | none => false
  | .dest_range =>
    match impl.find_gl_buffer_state cmd.dest_identifier with
    | some b => decide (b.size < cmd.dest_address + cmd.bytes)
    | none => false

/-- The kind reported for a failing check. -/
def copy_check.kind : copy_check → status_type
  | .source_registered => status_type.UNKNOWN_SOURCE
  | .source_valid => status_type.BROKEN_SOURCE
  | .dest_registered => status_type.UNKNOWN_SOURCE
  | .dest_valid => status_type.BROKEN_SOURCE
  | .source_range => status_type.RANGE_OVERFLOW
  | .dest_range => status_type.RANGE_OVERFLOW

/-- The name of the buffer a failing check is about. -/
def copy_check.named_buffer (cmd : buffer_copy_command) : copy_check → String
  | .source_registered => cmd.source_identifier.name
  | .source_valid => cmd.source_identifier.name
  | .dest_registered => cmd.dest_identifier.name
  | .dest_valid => cmd.dest_identifier.name
  | .source_range => cmd.source_identifier.name
  | .dest_range => cmd.dest_identifier.name

/-- The earliest check of the order that fails, if any. -/
def first_failing_copy_check (impl : gl45_impl) (cmd : buffer_copy_command) :
    Option copy_check :=
  copy_check.in_order.find? (copy_check.fails impl cmd)

/-! ## Properties -/

/-! ### Indexed draw: the byte offset -/

theorem gl_type_size_gl_index_size (t : draw_indexed_index_type) (h : t ≠ .undeclared) :
    gl_type_size (gl_index_size t) =
      match t with
      | .UINT_8 => 1
      | .UINT_16 => 2
      | _ => 4 := by
  cases t <;> first | rfl | exact absurd rfl h

/-- When the product fits the unsigned type it is computed in, and the sum fits
a pointer, the indexed draw is issued at
`start_index * element_size + index_offset`. -/
theorem execute_draw_indexed_of_fits (w : Nat) (impl : gl45_impl) (cmd : draw_indexed_command)
    (hbind : is_error_status
      (impl.bind_vertex_specification_state cmd.vertex_specification_source true).1 = false)
    (hprod : cmd.start_index * gl_type_size (gl_index_size cmd.index_type) < 2 ^ (max w 32))
    (hsum : cmd.start_index * gl_type_size (gl_index_size cmd.index_type) +
      (impl.bind_vertex_specification_state cmd.vertex_specification_source true).2 < 2 ^ 64) :
    execute_draw_indexed w impl cmd =
      (status.of_type status_type.SUCCESS,
        [backend_call.bind_vertex_specification_state cmd.vertex_specification_source true,
          backend_call.glDrawElementsInstancedBaseVertexBaseInstance (gl_draw_mode cmd.mode)
            cmd.count (gl_index_size cmd.index_type)
            (cmd.start_index * gl_type_size (gl_index_size cmd.index_type) +
              (impl.bind_vertex_specification_state cmd.vertex_specification_source true).2)
            cmd.instances cmd.vertex_index_offset cmd.start_instance]) := by
  simp only [execute_draw_indexed, hbind, index_pointer, Nat.mod_eq_of_lt hprod,
    Nat.mod_eq_of_lt hsum]
  rfl

/-- The spec scenario: `UINT_16`, `start_index = 10`, bound index offset 32
give the byte offset 52. -/
theorem execute_draw_indexed_scenario :
    execute_draw_indexed 32 (mock_impl [] (status.of_type status_type.SUCCESS) 32)
        ⟨⟨"quad"⟩, draw_mode.TRIANGLES, draw_indexed_index_type.UINT_16, 10, 6, 1, 0, 0⟩ =
      (status.of_type status_type.SUCCESS,
        [backend_call.bind_vertex_specification_state ⟨"quad"⟩ true,
          backend_call.glDrawElementsInstancedBaseVertexBaseInstance GL_TRIANGLES 6
            GL_UNSIGNED_SHORT 52 1 0 0]) := by
  rfl

/-- Whatever unsigned type of at least 32 bits `start_index` has, the product
wraps: at `start_index = 2 ^ (w - 2)` and `UINT_32` the draw is issued at
`index_offset`, not at `2 ^ w + index_offset`. -/
theorem execute_draw_indexed_wraps (w o : Nat) (hw : 32 ≤ w) (ho : o < 2 ^ 64)
    (src : object_identifier) (mode : draw_mode) (count instances start_instance : Nat)
    (base : Int) :
    (execute_draw_indexed w (mock_impl [] (status.of_type status_type.SUCCESS) o)
        ⟨src, mode, draw_indexed_index_type.UINT_32, 2 ^ (w - 2), count, instances, base,
          start_instance⟩).2 =
      [backend_call.bind_vertex_specification_state src true,
        backend_call.glDrawElementsInstancedBaseVertexBaseInstance (gl_draw_mode mode) count
          GL_UNSIGNED_INT o instances base start_instance] := by
  have h4 : 2 ^ (w - 2) * 4 = 2 ^ w := by
    rw [show (4 : Nat) = 2 ^ 2 from rfl, ← pow_add]
    congr 1
    omega
  have hs : gl_type_size (gl_index_size draw_indexed_index_type.UINT_32) = 4 := rfl
  have hmax : max w 32 = w := max_eq_left hw
  have hb : is_error_status (status.of_type status_type.SUCCESS) = false := rfl
  simp only [execute_draw_indexed, mock_impl, hb, index_pointer, hs, h4, hmax, Nat.mod_self,
    Nat.zero_add, Nat.mod_eq_of_lt ho]
  rfl

/-- C1 (the code at the failing input): `DRAW_INDEXED` with a 32-bit
`start_index = 2 ^ 30`, `index_type = UINT_32` and bound index offset 32 is
issued at byte offset 32, while `start_index × element_size + offset` is
`4294967328`: the 32-bit product `2 ^ 30 × 4` wrapped to 0. -/
theorem execute_draw_indexed_product_wraps :
    execute_draw_indexed 32 (mock_impl [] (status.of_type status_type.SUCCESS) 32)
        ⟨⟨"mesh"⟩, draw_mode.TRIANGLES, draw_indexed_index_type.UINT_32, 1073741824, 3, 1, 0, 0⟩ =
      (status.of_type status_type.SUCCESS,
        [backend_call.bind_vertex_specification_state ⟨"mesh"⟩ true,
          backend_call.glDrawElementsInstancedBaseVertexBaseInstance GL_TRIANGLES 3
            GL_UNSIGNED_INT 32 1 0 0]) ∧
      1073741824 * gl_type_size (gl_index_size draw_indexed_index_type.UINT_32) + 32 = 4294967328 := by
  constructor
  · rfl
  · rfl

/-! ### Buffer copy: range validation -/

/-- C2: with both buffers registered and valid, `execute_buffer_copy` returns
`RANGE_OVERFLOW` and makes no call when `source_address + bytes` exceeds the
source size or `dest_address + bytes` exceeds the destination size (sums of
natural numbers), and otherwise makes the one `copy_data` call on the
destination and returns its status. -/
theorem execute_buffer_copy_range (impl : gl45_impl) (cmd : buffer_copy_command)
    (src dst : buffer_state)
    (hsrc : impl.find_gl_buffer_state cmd.source_identifier = some src)
    (hdst : impl.find_gl_buffer_state cmd.dest_identifier = some dst)
    (hsv : src.valid = true) (hdv : dst.valid = true) :
    ((src.size < cmd.source_address + cmd.bytes ∨ dst.size < cmd.dest_address + cmd.bytes) →
      (execute_buffer_copy impl cmd).1.kind = status_type.RANGE_OVERFLOW ∧
      (execute_buffer_copy impl cmd).2 = []) ∧
    (¬ (src.size < cmd.source_address + cmd.bytes ∨ dst.size < cmd.dest_address + cmd.bytes) →
      execute_buffer_copy impl cmd =
        (impl.copy_data dst src.gl_id cmd.source_address cmd.dest_address cmd.bytes,
          [backend_call.copy_data dst src.gl_id cmd.source_address cmd.dest_address
            cmd.bytes])) := by
  constructor
  · intro h
    by_cases h1 : cmd.source_address + cmd.bytes ≤ src.size
    · have h2 : ¬ cmd.dest_address + cmd.bytes ≤ dst.size := by omega
      simp [execute_buffer_copy, hsrc, hdst, buffer_state.is_valid, hsv, hdv,
        buffer_state.is_in_buffer_range, h1, h2]
    · simp [execute_buffer_copy, hsrc, hdst, buffer_state.is_valid, hsv, hdv,
        buffer_state.is_in_buffer_range, h1]
  · intro h
    have h1 : cmd.source_address + cmd.bytes ≤ src.size := by omega
    have h2 : cmd.dest_address + cmd.bytes ≤ dst.size := by omega
    simp [execute_buffer_copy, hsrc, hdst, buffer_state.is_valid, hsv, hdv,
      buffer_state.is_in_buffer_range, h1, h2]

/-- The spec scenario of C2: a buffer `B` of 1024 bytes copied onto itself with
`src_addr = 0`, `dst_addr = 512`, `bytes = 513`. -/
theorem execute_buffer_copy_range_witness :
    (execute_buffer_copy (mock_impl [("B", ⟨7, 1024, true⟩)] (status.of_type status_type.SUCCESS) 0)
        ⟨⟨"B"⟩, ⟨"B"⟩, 0, 512, 513⟩).1.kind = status_type.RANGE_OVERFLOW ∧
    (execute_buffer_copy (mock_impl [("B", ⟨7, 1024, true⟩)] (status.of_type status_type.SUCCESS) 0)
        ⟨⟨"B"⟩, ⟨"B"⟩, 0, 512, 513⟩).2 = [] :=
  (execute_buffer_copy_range
    (mock_impl [("B", ⟨7, 1024, true⟩)] (status.of_type status_type.SUCCESS) 0)
    ⟨⟨"B"⟩, ⟨"B"⟩, 0, 512, 513⟩ ⟨7, 1024, true⟩ ⟨7, 1024, true⟩
    (by rfl) (by rfl) rfl rfl).1 (Or.inr (by decide))

/-! ### Buffer commands: unknown and broken buffers -/

theorem unknown_buffer_message_contains (name : String) :
    message_contains (unknown_buffer_message name) name :=
  ⟨"No buffer with name \x27", "\x27 in pipeline", rfl⟩

theorem invalid_buffer_message_contains (name : String) :
    message_contains (invalid_buffer_message name) name :=
  ⟨"Buffer \x27", "\x27 is in an invalid state", rfl⟩

theorem copy_range_message_contains (name : String) :
    message_contains (copy_range_message name) name :=
  ⟨"Requested copy range is out of range in buffer \x27", "\x27", rfl⟩

/-- C3 as stated fails: a `BUFFER_COPY` whose destination `ghost` is not
registered, but whose source `A` is registered and invalid, returns
`BROKEN_SOURCE` (the source is checked first), not `UNKNOWN_SOURCE`. -/
theorem execute_buffer_copy_unknown_dest_broken_source :
    (mock_impl [("A", ⟨1, 64, false⟩)] (status.of_type status_type.SUCCESS) 0).find_gl_buffer_state
        ⟨"ghost"⟩ = none ∧
    (execute_buffer_copy (mock_impl [("A", ⟨1, 64, false⟩)] (status.of_type status_type.SUCCESS) 0)
        ⟨⟨"A"⟩, ⟨"ghost"⟩, 0, 0, 8⟩).1.kind = status_type.BROKEN_SOURCE ∧
    (execute_buffer_copy (mock_impl [("A", ⟨1, 64, false⟩)] (status.of_type status_type.SUCCESS) 0)
        ⟨⟨"A"⟩, ⟨"ghost"⟩, 0, 0, 8⟩).1.kind ≠ status_type.UNKNOWN_SOURCE := by
  refine ⟨by rfl, by rfl, ?_⟩
  intro h
  exact absurd h (by decide)

/-- C3 (amended): a `BUFFER_UPLOAD` or `BUFFER_ATTACH` whose buffer is not
registered, a `BUFFER_COPY` whose source is not registered, and a
`BUFFER_COPY` whose source is registered and valid and whose destination is
not registered, return `UNKNOWN_SOURCE` with the name of that identifier in the
message, and make no call. -/
theorem unregistered_buffer_unknown_source (impl : gl45_impl) :
    (∀ cmd : buffer_upload_command,
      impl.find_gl_buffer_state cmd.buffer_identifier = none →
      rejected_naming (execute_buffer_upload impl cmd) status_type.UNKNOWN_SOURCE
        cmd.buffer_identifier.name) ∧
    (∀ cmd : buffer_attach_command,
      impl.find_gl_buffer_state cmd.buffer_identifier = none →
      rejected_naming (execute_buffer_attach impl cmd) status_type.UNKNOWN_SOURCE
        cmd.buffer_identifier.name) ∧
    (∀ cmd : buffer_copy_command,
      impl.find_gl_buffer_state cmd.source_identifier = none →
      rejected_naming (execute_buffer_copy impl cmd) status_type.UNKNOWN_SOURCE
        cmd.source_identifier.name) ∧
    (∀ (cmd : buffer_copy_command) (src : buffer_state),
      impl.find_gl_buffer_state cmd.source_identifier = some src → src.valid = true →
      impl.find_gl_buffer_state cmd.dest_identifier = none →
      rejected_naming (execute_buffer_copy impl cmd) status_type.UNKNOWN_SOURCE
        cmd.dest_identifier.name) := by
  refine ⟨?_, ?_, ?_, ?_⟩
  · intro cmd h
    simp only [execute_buffer_upload, h]
    exact ⟨rfl, unknown_buffer_message_contains _, rfl⟩
  · intro cmd h
    simp only [execute_buffer_attach, h]
    exact ⟨rfl, unknown_buffer_message_contains _, rfl⟩
  · intro cmd h
    simp only [execute_buffer_copy, h]
    exact ⟨rfl, unknown_buffer_message_contains _, rfl⟩
  · intro cmd src hs hv hd
    simp only [execute_buffer_copy, hs, hd, buffer_state.is_valid, hv]
    exact ⟨rfl, unknown_buffer_message_contains _, rfl⟩

/-- The spec scenario of C3: an upload to the unregistered buffer `ghost`; and
one instance of each other case. -/
theorem unregistered_buffer_unknown_source_witness :
    rejected_naming
      (execute_buffer_upload (mock_impl [("B", ⟨7, 1024, true⟩)] (status.of_type status_type.SUCCESS) 0)
        ⟨⟨"ghost"⟩, buffer_upload_type.UNSAFE_DIRECT, 0, 4096, 16⟩)
      status_type.UNKNOWN_SOURCE "ghost" ∧
    rejected_naming
      (execute_buffer_attach (mock_impl [("B", ⟨7, 1024, true⟩)] (status.of_type status_type.SUCCESS) 0)
        ⟨⟨"ghost"⟩, buffer_attachment_type.SHADER_UNIFORM_BLOCK, 2⟩)
      status_type.UNKNOWN_SOURCE "ghost" ∧
    rejected_naming
      (execute_buffer_copy (mock_impl [("B", ⟨7, 1024, true⟩)] (status.of_type status_type.SUCCESS) 0)
        ⟨⟨"ghost"⟩, ⟨"B"⟩, 0, 0, 16⟩)
      status_type.UNKNOWN_SOURCE "ghost" ∧
    rejected_naming
      (execute_buffer_copy (mock_impl [("B", ⟨7, 1024, true⟩)] (status.of_type status_type.SUCCESS) 0)
        ⟨⟨"B"⟩, ⟨"ghost"⟩, 0, 0, 16⟩)
      status_type.UNKNOWN_SOURCE "ghost" :=
  ⟨(unregistered_buffer_unknown_source _).1
      ⟨⟨"ghost"⟩, buffer_upload_type.UNSAFE_DIRECT, 0, 4096, 16⟩ (by rfl),
    (unregistered_buffer_unknown_source _).2.1
      ⟨⟨"ghost"⟩, buffer_attachment_type.SHADER_UNIFORM_BLOCK, 2⟩ (by rfl),
    (unregistered_buffer_unknown_source _).2.2.1 ⟨⟨"ghost"⟩, ⟨"B"⟩, 0, 0, 16⟩ (by rfl),
    (unregistered_buffer_unknown_source _).2.2.2 ⟨⟨"B"⟩, ⟨"ghost"⟩, 0, 0, 16⟩ ⟨7, 1024, true⟩
      (by rfl) rfl (by rfl)⟩

/-- C4 as stated fails: a `BUFFER_COPY` whose destination `A` is registered and
invalid, but whose source `ghost` is not registered, returns `UNKNOWN_SOURCE`
(the source is looked up first), not `BROKEN_SOURCE`. -/
theorem execute_buffer_copy_broken_dest_unknown_source :
    (mock_impl [("A", ⟨1, 64, false⟩)] (status.of_type status_type.SUCCESS) 0).find_gl_buffer_state
        ⟨"A"⟩ = some ⟨1, 64, false⟩ ∧
    (execute_buffer_copy (mock_impl [("A", ⟨1, 64, false⟩)] (status.of_type status_type.SUCCESS) 0)
        ⟨⟨"ghost"⟩, ⟨"A"⟩, 0, 0, 8⟩).1.kind = status_type.UNKNOWN_SOURCE ∧
    (execute_buffer_copy (mock_impl [("A", ⟨1, 64, false⟩)] (status.of_type status_type.SUCCESS) 0)
        ⟨⟨"ghost"⟩, ⟨"A"⟩, 0, 0, 8⟩).1.kind ≠ status_type.BROKEN_SOURCE := by
  refine ⟨by rfl, by rfl, ?_⟩
  intro h
  exact absurd h (by decide)

/-- C4 (amended): a `BUFFER_UPLOAD` or `BUFFER_ATTACH` whose buffer is
registered and invalid, a `BUFFER_COPY` whose source is registered and
invalid, and a `BUFFER_COPY` whose source is registered and valid and whose
destination is registered and invalid, return `BROKEN_SOURCE` and make no
call, whatever the other fields are. -/
theorem invalid_buffer_broken_source (impl : gl45_impl) :
    (∀ (cmd : buffer_upload_command) (b : buffer_state),
      impl.find_gl_buffer_state cmd.buffer_identifier = some b → b.valid = false →
      rejected_naming (execute_buffer_upload impl cmd) status_type.BROKEN_SOURCE
        cmd.buffer_identifier.name) ∧
    (∀ (cmd : buffer_attach_command) (b : buffer_state),
      impl.find_gl_buffer_state cmd.buffer_identifier = some b → b.valid = false →
      rejected_naming (execute_buffer_attach impl cmd) status_type.BROKEN_SOURCE
        cmd.buffer_identifier.name) ∧
    (∀ (cmd : buffer_copy_command) (src : buffer_state),
      impl.find_gl_buffer_state cmd.source_identifier = some src → src.valid = false →
      rejected_naming (execute_buffer_copy impl cmd) status_type.BROKEN_SOURCE
        cmd.source_identifier.name) ∧
    (∀ (cmd : buffer_copy_command) (src dst : buffer_state),
      impl.find_gl_buffer_state cmd.source_identifier = some src → src.valid = true →
      impl.find_gl_buffer_state cmd.dest_identifier = some dst → dst.valid = false →
      rejected_naming (execute_buffer_copy impl cmd) status_type.BROKEN_SOURCE
        cmd.dest_identifier.name) := by
  refine ⟨?_, ?_, ?_, ?_⟩
  · intro cmd b h hv
    simp only [execute_buffer_upload, h, buffer_state.is_valid, hv]
    exact ⟨rfl, invalid_buffer_message_contains _, rfl⟩
  · intro cmd b h hv
    simp only [execute_buffer_attach, h, buffer_state.is_valid, hv]
    exact ⟨rfl, invalid_buffer_message_contains _, rfl⟩
  · intro cmd src h hv
    simp only [execute_buffer_copy, h, buffer_state.is_valid, hv]
    exact ⟨rfl, invalid_buffer_message_contains _, rfl⟩
  · intro cmd src dst hs hsv hd hdv
    simp only [execute_buffer_copy, hs, hd, buffer_state.is_valid, hsv, hdv]
    exact ⟨rfl, invalid_buffer_message_contains _, rfl⟩

/-- One instance of each case of C4, on a registry with a valid buffer `B` and
an invalid buffer `A`. -/
theorem invalid_buffer_broken_source_witness :
    rejected_naming
      (execute_buffer_upload
        (mock_impl [("A", ⟨1, 64, false⟩), ("B", ⟨7, 1024, true⟩)]
          (status.of_type status_type.SUCCESS) 0)
        ⟨⟨"A"⟩, buffer_upload_type.undeclared, 4000, 4096, 16⟩)
      status_type.BROKEN_SOURCE "A" ∧
    rejected_naming
      (execute_buffer_attach
        (mock_impl [("A", ⟨1, 64, false⟩), ("B", ⟨7, 1024, true⟩)]
          (status.of_type status_type.SUCCESS) 0)
        ⟨⟨"A"⟩, buffer_attachment_type.undeclared, 2⟩)
      status_type.BROKEN_SOURCE "A" ∧
    rejected_naming
      (execute_buffer_copy
        (mock_impl [("A", ⟨1, 64, false⟩), ("B", ⟨7, 1024, true⟩)]
          (status.of_type status_type.SUCCESS) 0)
        ⟨⟨"A"⟩, ⟨"B"⟩, 0, 0, 4096⟩)
      status_type.BROKEN_SOURCE "A" ∧
    rejected_naming
      (execute_buffer_copy
        (mock_impl [("A", ⟨1, 64, false⟩), ("B", ⟨7, 1024, true⟩)]
          (status.of_type status_type.SUCCESS) 0)
        ⟨⟨"B"⟩, ⟨"A"⟩, 0, 0, 4096⟩)
      status_type.BROKEN_SOURCE "A" :=
  ⟨(invalid_buffer_broken_source _).1
      ⟨⟨"A"⟩, buffer_upload_type.undeclared, 4000, 4096, 16⟩ ⟨1, 64, false⟩ (by rfl) rfl,
    (invalid_buffer_broken_source _).2.1
      ⟨⟨"A"⟩, buffer_attachment_type.undeclared, 2⟩ ⟨1, 64, false⟩ (by rfl) rfl,
    (invalid_buffer_broken_source _).2.2.1 ⟨⟨"A"⟩, ⟨"B"⟩, 0, 0, 4096⟩ ⟨1, 64, false⟩
      (by rfl) rfl,
    (invalid_buffer_broken_source _).2.2.2 ⟨⟨"B"⟩, ⟨"A"⟩, 0, 0, 4096⟩ ⟨7, 1024, true⟩
      ⟨1, 64, false⟩ (by rfl) rfl (by rfl) rfl⟩

/-! ### Enum values outside the declared domain -/

/-- C5 as stated fails: a `DRAW` with an undeclared draw mode, on a vertex
specification that binds, is issued with the mode token `4294967295` and the
status is `SUCCESS`, not `UNSUPPORTED`. -/
theorem execute_draw_cmd_undeclared_mode_success :
    execute_draw_cmd (mock_impl [] (status.of_type status_type.SUCCESS) 0)
        ⟨⟨"quad"⟩, draw_mode.undeclared, 0, 3, 1, 0⟩ =
      (⟨status_type.SUCCESS, ""⟩,
        [backend_call.bind_vertex_specification_state ⟨"quad"⟩ false,
          backend_call.glDrawArraysInstancedBaseInstance 4294967295 0 3 1 0]) ∧
    (execute_draw_cmd (mock_impl [] (status.of_type status_type.SUCCESS) 0)
        ⟨⟨"quad"⟩, draw_mode.undeclared, 0, 3, 1, 0⟩).1.kind ≠ status_type.UNSUPPORTED := by
  refine ⟨by rfl, ?_⟩
  intro h
  exact absurd h (by decide)

/-- C5 (amended): an enum value outside the declared domain is translated to
the fallback token `4294967295` and handed to the backend; the executor does
not look at the token.  So `DRAW` (on a specification that binds),
`CONFIG_DEPTH_TEST` and `CONFIG_BLENDING` with `enabled = true`, and
`CLEAR_WINDOW` return `SUCCESS`; `BUFFER_ATTACH` of a registered valid buffer
calls `bind_to_slot` with the fallback token and returns its status.  Only
`BUFFER_UPLOAD` of a registered valid buffer with an undeclared `upload_type`
returns `UNSUPPORTED`, with no call made. -/
theorem undeclared_enum_value_passed_on (impl : gl45_impl) :
    (∀ (src : object_identifier) (start_vertex count instances start_instance : Nat),
      is_error_status (impl.bind_vertex_specification_state src false).1 = false →
      execute_draw_cmd impl ⟨src, draw_mode.undeclared, start_vertex, count, instances,
          start_instance⟩ =
        (status.of_type status_type.SUCCESS,
          [backend_call.bind_vertex_specification_state src false,
            backend_call.glDrawArraysInstancedBaseInstance 4294967295 start_vertex count
              instances start_instance])) ∧
    (∀ enable_depth_write : Bool,
      execute_config_depth_test ⟨⟨true, depth_test_func.undeclared, enable_depth_write⟩⟩ =
        (status.of_type status_type.SUCCESS,
          [backend_call.glEnablei GL_DEPTH_TEST 0, backend_call.glDepthFunc 4294967295,
            backend_call.glDepthMask enable_depth_write])) ∧
    (∀ (draw_buffer_index : Nat) (r g b a : fp_value),
      execute_config_blending
          ⟨draw_buffer_index, ⟨true, r, g, b, a, blending_func.undeclared,
            blending_func.undeclared, blending_factor.undeclared, blending_factor.undeclared,
            blending_factor.undeclared, blending_factor.undeclared⟩⟩ =
        (status.of_type status_type.SUCCESS,
          [backend_call.glEnablei GL_BLEND 0, backend_call.glBlendColor r g b a,
            backend_call.glBlendEquationSeparatei draw_buffer_index 4294967295 4294967295,
            backend_call.glBlendFuncSeparatei draw_buffer_index 4294967295 4294967295
              4294967295 4294967295])) ∧
    (∀ config : clear_values_config,
      execute_clear_window ⟨clear_window_mode.undeclared, config⟩ =
        (status.of_type status_type.SUCCESS,
          [backend_call.glClearColor config.color_r config.color_g config.color_b
              config.color_a,
            backend_call.glClearDepth config.depth, backend_call.glClearStencil config.stencil,
            backend_call.glClear 4294967295])) ∧
    (∀ (id : object_identifier) (index : Nat) (b : buffer_state),
      impl.find_gl_buffer_state id = some b → b.valid = true →
      execute_buffer_attach impl ⟨id, buffer_attachment_type.undeclared, index⟩ =
        (impl.bind_to_slot b 4294967295 index,
          [backend_call.bind_to_slot b 4294967295 index])) ∧
    (∀ (id : object_identifier) (address data bytes : Nat) (b : buffer_state),
      impl.find_gl_buffer_state id = some b → b.valid = true →
      (execute_buffer_upload impl
          ⟨id, buffer_upload_type.undeclared, address, data, bytes⟩).1.kind =
        status_type.UNSUPPORTED ∧
      (execute_buffer_upload impl
          ⟨id, buffer_upload_type.undeclared, address, data, bytes⟩).2 = []) := by
  refine ⟨?_, ?_, ?_, ?_, ?_, ?_⟩
  · intro src a b c d h
    simp only [execute_draw_cmd, h]
    rfl
  · intro w
    rfl
  · intro i r g b a
    rfl
  · intro config
    rfl
  · intro id index b h hv
    simp only [execute_buffer_attach, h, buffer_state.is_valid, hv]
    rfl
  · intro id address data bytes b h hv
    simp only [execute_buffer_upload, h, buffer_state.is_valid, hv]
    exact ⟨rfl, rfl⟩

/-- Instances of C5 (amended) with a hypothesis: an undeclared draw mode on a
specification that binds, and an undeclared attachment type and upload type
on the registered valid buffer `B`. -/
theorem undeclared_enum_value_passed_on_witness :
    execute_draw_cmd (mock_impl [("B", ⟨7, 1024, true⟩)] (status.of_type status_type.SUCCESS) 0)
        ⟨⟨"quad"⟩, draw_mode.undeclared, 0, 3, 1, 0⟩ =
      (status.of_type status_type.SUCCESS,
        [backend_call.bind_vertex_specification_state ⟨"quad"⟩ false,
          backend_call.glDrawArraysInstancedBaseInstance 4294967295 0 3 1 0]) ∧
    execute_buffer_attach
        (mock_impl [("B", ⟨7, 1024, true⟩)] (status.of_type status_type.SUCCESS) 0)
        ⟨⟨"B"⟩, buffer_attachment_type.undeclared, 2⟩ =
      ((mock_impl [("B", ⟨7, 1024, true⟩)] (status.of_type status_type.SUCCESS) 0).bind_to_slot
          ⟨7, 1024, true⟩ 4294967295 2,
        [backend_call.bind_to_slot ⟨7, 1024, true⟩ 4294967295 2]) ∧
    (execute_buffer_upload
        (mock_impl [("B", ⟨7, 1024, true⟩)] (status.of_type status_type.SUCCESS) 0)
        ⟨⟨"B"⟩, buffer_upload_type.undeclared, 0, 4096, 16⟩).1.kind = status_type.UNSUPPORTED ∧
    (execute_buffer_upload
        (mock_impl [("B", ⟨7, 1024, true⟩)] (status.of_type status_type.SUCCESS) 0)
        ⟨⟨"B"⟩, buffer_upload_type.undeclared, 0, 4096, 16⟩).2 = [] :=
  ⟨(undeclared_enum_value_passed_on _).1 ⟨"quad"⟩ 0 3 1 0 rfl,
    (undeclared_enum_value_passed_on _).2.2.2.2.1 ⟨"B"⟩ 2 ⟨7, 1024, true⟩ (by rfl) rfl,
    (undeclared_enum_value_passed_on _).2.2.2.2.2 ⟨"B"⟩ 0 4096 16 ⟨7, 1024, true⟩ (by rfl) rfl⟩

/-- No enum field decides the status of a draw, config or clear executor: the
draw executors return the bind status when it is an error and `SUCCESS`
otherwise, and the config and clear executors always return `SUCCESS`. -/
theorem status_independent_of_enum_fields (impl : gl45_impl) :
    (∀ cmd : draw_command,
      (execute_draw_cmd impl cmd).1 =
        if is_error_status
            (impl.bind_vertex_specification_state cmd.vertex_specification_source false).1
        then (impl.bind_vertex_specification_state cmd.vertex_specification_source false).1
        else status.of_type status_type.SUCCESS) ∧
    (∀ (w : Nat) (cmd : draw_indexed_command),
      (execute_draw_indexed w impl cmd).1 =
        if is_error_status
            (impl.bind_vertex_specification_state cmd.vertex_specification_source true).1
        then (impl.bind_vertex_specification_state cmd.vertex_specification_source true).1
        else status.of_type status_type.SUCCESS) ∧
    (∀ cmd : draw_indirect_command,
      (execute_draw_indirect impl cmd).1 =
        if is_error_status
            (impl.bind_vertex_specification_state cmd.vertex_specification_source false).1
        then (impl.bind_vertex_specification_state cmd.vertex_specification_source false).1
        else status.of_type status_type.SUCCESS) ∧
    (∀ cmd : draw_indexed_indirect_command,
      (execute_draw_indexed_indirect impl cmd).1 =
        if is_error_status
            (impl.bind_vertex_specification_state cmd.vertex_specification_source true).1
        then (impl.bind_vertex_specification_state cmd.vertex_specification_source true).1
        else status.of_type status_type.SUCCESS) ∧
    (∀ cmd, (execute_config_blending cmd).1 = status.of_type status_type.SUCCESS) ∧
    (∀ cmd, (execute_config_stencil cmd).1 = status.of_type status_type.SUCCESS) ∧
    (∀ cmd, (execute_config_scissor cmd).1 = status.of_type status_type.SUCCESS) ∧
    (∀ cmd, (execute_config_face_cull cmd).1 = status.of_type status_type.SUCCESS) ∧
    (∀ cmd, (execute_config_depth_test cmd).1 = status.of_type status_type.SUCCESS) ∧
    (∀ cmd, (execute_config_depth_range cmd).1 = status.of_type status_type.SUCCESS) ∧
    (∀ cmd, (execute_clear_window cmd).1 = status.of_type status_type.SUCCESS) := by
  refine ⟨?_, ?_, ?_, ?_, ?_, ?_, ?_, ?_, ?_, ?_, ?_⟩
  · intro cmd
    simp only [execute_draw_cmd]
    split <;> rfl
  · intro w cmd
    simp only [execute_draw_indexed]
    split <;> rfl
  · intro cmd
    simp only [execute_draw_indirect]
    split <;> rfl
  · intro cmd
    simp only [execute_draw_indexed_indirect]
    split <;> rfl
  · intro cmd
    simp only [execute_config_blending]
    split <;> rfl
  · intro cmd
    simp only [execute_config_stencil]
    split <;> rfl
  · intro cmd
    simp only [execute_config_scissor]
    split <;> rfl
  · intro cmd
    simp only [execute_config_face_cull]
    split <;> rfl
  · intro cmd
    simp only [execute_config_depth_test]
    split <;> rfl
  · intro cmd
    rfl
  · intro cmd
    rfl

/-! ### Enum translation on the declared values -/

/-- C6: each translator returns the fallback `-1` exactly on the undeclared
value, and on every declared value the OpenGL token of the same name and
meaning: the topologies, the index widths (whose element sizes are 4, 2 and
1), the buffer targets, the comparison functions, the clear bits and their
unions, the facings, the stencil operations, the blend factors and the blend
equations. -/
theorem translators_total_on_declared :
    ((∀ m, gl_draw_mode m = GL_MINUS_ONE ↔ m = draw_mode.undeclared) ∧
      gl_draw_mode .TRIANGLES = GL_TRIANGLES ∧
      gl_draw_mode .TRIANGLE_FAN = GL_TRIANGLE_FAN ∧
      gl_draw_mode .TRIANGLE_STRIP = GL_TRIANGLE_STRIP) ∧
    ((∀ t, gl_index_size t = GL_MINUS_ONE ↔ t = draw_indexed_index_type.undeclared) ∧
      gl_index_size .UINT_32 = GL_UNSIGNED_INT ∧
      gl_index_size .UINT_16 = GL_UNSIGNED_SHORT ∧
      gl_index_size .UINT_8 = GL_UNSIGNED_BYTE ∧
      gl_type_size (gl_index_size .UINT_32) = 4 ∧
      gl_type_size (gl_index_size .UINT_16) = 2 ∧
      gl_type_size (gl_index_size .UINT_8) = 1) ∧
    ((∀ a, gl_buffer_attach_point a = GL_MINUS_ONE ↔ a = buffer_attachment_type.undeclared) ∧
      gl_buffer_attach_point .SHADER_STORAGE_BLOCK = GL_SHADER_STORAGE_BUFFER ∧
      gl_buffer_attach_point .SHADER_UNIFORM_BLOCK = GL_UNIFORM_BUFFER ∧
      gl_buffer_attach_point .SHADER_ATOMIC_COUNTER_BLOCK = GL_ATOMIC_COUNTER_BUFFER) ∧
    ((∀ f, gl_depth_test_func f = GL_MINUS_ONE ↔ f = depth_test_func.undeclared) ∧
      gl_depth_test_func .ALWAYS = GL_ALWAYS ∧
      gl_depth_test_func .NEVER = GL_NEVER ∧
      gl_depth_test_func .LESS = GL_LESS ∧
      gl_depth_test_func .LESS_EQUAL = GL_LEQUAL ∧
      gl_depth_test_func .GREATER = GL_GREATER ∧
      gl_depth_test_func .GREATER_EQUAL = GL_GEQUAL ∧
      gl_depth_test_func .EQUAL = GL_EQUAL ∧
      gl_depth_test_func .NOT_EQUAL = GL_NOTEQUAL) ∧
    ((∀ m, gl_clear_mask m = GL_MINUS_ONE ↔ m = clear_window_mode.undeclared) ∧
      gl_clear_mask .COLOR = GL_COLOR_BUFFER_BIT ∧
      gl_clear_mask .DEPTH = GL_DEPTH_BUFFER_BIT ∧
      gl_clear_mask .STENCIL = GL_STENCIL_BUFFER_BIT ∧
      gl_clear_mask .COLOR_AND_DEPTH = GL_COLOR_BUFFER_BIT ||| GL_DEPTH_BUFFER_BIT ∧
      gl_clear_mask .COLOR_AND_STENCIL = GL_COLOR_BUFFER_BIT ||| GL_STENCIL_BUFFER_BIT ∧
      gl_clear_mask .DEPTH_AND_STENCIL = GL_DEPTH_BUFFER_BIT ||| GL_STENCIL_BUFFER_BIT ∧
      gl_clear_mask .ALL =
        GL_COLOR_BUFFER_BIT ||| GL_DEPTH_BUFFER_BIT ||| GL_STENCIL_BUFFER_BIT) ∧
    ((∀ f, gl_stencil_facing f = GL_MINUS_ONE ↔ f = stencil_facing.undeclared) ∧
      gl_stencil_facing .FRONT = GL_FRONT ∧
      gl_stencil_facing .BACK = GL_BACK ∧
      gl_stencil_facing .BOTH = GL_FRONT_AND_BACK) ∧
    ((∀ f, gl_stencil_test_func f = GL_MINUS_ONE ↔ f = stencil_test_func.undeclared) ∧
      gl_stencil_test_func .ALWAYS = GL_ALWAYS ∧
      gl_stencil_test_func .NEVER = GL_NEVER ∧
      gl_stencil_test_func .LESS = GL_LESS ∧
      gl_stencil_test_func .LESS_EQUAL = GL_LEQUAL ∧
      gl_stencil_test_func .GREATER = GL_GREATER ∧
      gl_stencil_test_func .GREATER_EQUAL = GL_GEQUAL ∧
      gl_stencil_test_func .EQUAL = GL_EQUAL ∧
      gl_stencil_test_func .NOT_EQUAL = GL_NOTEQUAL) ∧
    ((∀ o, gl_stencil_test_op o = GL_MINUS_ONE ↔ o = stencil_result_op.undeclared) ∧
      gl_stencil_test_op .KEEP = GL_KEEP ∧
      gl_stencil_test_op .ZERO = GL_ZERO ∧
      gl_stencil_test_op .REPLACE = GL_REPLACE ∧
      gl_stencil_test_op .INCREMENT = GL_INCR ∧
      gl_stencil_test_op .INCREMENT_WRAP = GL_INCR_WRAP ∧
      gl_stencil_test_op .DECREMENT = GL_DECR ∧
      gl_stencil_test_op .DECREMENT_WRAP = GL_DECR_WRAP ∧
      gl_stencil_test_op .INVERT = GL_INVERT) ∧
    ((∀ f, gl_blend_factor f = GL_MINUS_ONE ↔ f = blending_factor.undeclared) ∧
      gl_blend_factor .ZERO = GL_ZERO ∧
      gl_blend_factor .ONE = GL_ONE ∧
      gl_blend_factor .CONSTANT_COLOR = GL_CONSTANT_COLOR ∧
      gl_blend_factor .CONSTANT_ALPHA = GL_CONSTANT_ALPHA ∧
      gl_blend_factor .ONE_MINUS_CONSTANT_COLOR = GL_ONE_MINUS_CONSTANT_COLOR ∧
      gl_blend_factor .ONE_MINUS_CONSTANT_ALPHA = GL_ONE_MINUS_CONSTANT_ALPHA ∧
      gl_blend_factor .SOURCE_COLOR = GL_SRC_COLOR ∧
      gl_blend_factor .DEST_COLOR = GL_DST_COLOR ∧
      gl_blend_factor .ONE_MINUS_SOURCE_COLOR = GL_ONE_MINUS_SRC_COLOR ∧
      gl_blend_factor .ONE_MINUS_DEST_COLOR = GL_ONE_MINUS_DST_COLOR ∧
      gl_blend_factor .SOURCE_ALPHA = GL_SRC_ALPHA ∧
      gl_blend_factor .DEST_ALPHA = GL_DST_ALPHA ∧
      gl_blend_factor .ONE_MINUS_SOURCE_ALPHA = GL_ONE_MINUS_SRC_ALPHA ∧
      gl_blend_factor .ONE_MINUS_DEST_ALPHA = GL_ONE_MINUS_DST_ALPHA ∧
      gl_blend_factor .SOURCE_ALPHA_SATURATE = GL_SRC_ALPHA_SATURATE ∧
      gl_blend_factor .SECONDARY_SOURCE_COLOR = GL_SRC1_COLOR ∧
      gl_blend_factor .SECONDARY_SOURCE_ALPHA = GL_SRC1_ALPHA) ∧
    ((∀ f, gl_blend_func f = GL_MINUS_ONE ↔ f = blending_func.undeclared) ∧
      gl_blend_func .ADD = GL_FUNC_ADD ∧
      gl_blend_func .SUBTRACT = GL_FUNC_SUBTRACT ∧
      gl_blend_func .REVERSE_SUBTRACT = GL_FUNC_REVERSE_SUBTRACT ∧
      gl_blend_func .MIN = GL_MIN ∧
      gl_blend_func .MAX = GL_MAX) := by
  refine ⟨⟨?_, rfl, rfl, rfl⟩, ⟨?_, rfl, rfl, rfl, rfl, rfl, rfl⟩, ⟨?_, rfl, rfl, rfl⟩,
    ⟨?_, rfl, rfl, rfl, rfl, rfl, rfl, rfl, rfl⟩, ⟨?_, rfl, rfl, rfl, rfl, rfl, rfl, rfl⟩,
    ⟨?_, rfl, rfl, rfl⟩, ⟨?_, rfl, rfl, rfl, rfl, rfl, rfl, rfl, rfl⟩,
    ⟨?_, rfl, rfl, rfl, rfl, rfl, rfl, rfl, rfl⟩,
    ⟨?_, rfl, rfl, rfl, rfl, rfl, rfl, rfl, rfl, rfl, rfl, rfl, rfl, rfl, rfl, rfl, rfl, rfl⟩,
    ⟨?_, rfl, rfl, rfl, rfl, rfl⟩⟩ <;>
  · intro v
    cases v <;> decide

/-! ### Face cull translation -/

/-- C7 as stated fails: `gl_face_cull_mode` sends the declared value
`DISABLED` to its `default` branch, so it returns the `-1` fallback. -/
theorem gl_face_cull_mode_disabled_fallback :
    gl_face_cull_mode face_cull_mode.DISABLED = 4294967295 := by
  rfl

/-- C7 (amended): `gl_face_cull_mode` returns a valid token for `BACK`, `FRONT`
and `BOTH` (the back, front and front-and-back tokens); it returns the `-1`
fallback exactly for `DISABLED` and for an undeclared value. -/
theorem gl_face_cull_mode_fallback_iff :
    (∀ m, gl_face_cull_mode m = GL_MINUS_ONE ↔
      (m = face_cull_mode.DISABLED ∨ m = face_cull_mode.undeclared)) ∧
    gl_face_cull_mode .BACK = GL_BACK ∧
    gl_face_cull_mode .FRONT = GL_FRONT ∧
    gl_face_cull_mode .BOTH = GL_FRONT_AND_BACK := by
  refine ⟨?_, rfl, rfl, rfl⟩
  intro m
  cases m <;> decide

/-! ### Config commands -/

/-- With `enabled = false`, `CONFIG_BLENDING`, `CONFIG_STENCIL` and
`CONFIG_DEPTH_TEST` make one call, the disable toggle of their feature at
index 0, and return `SUCCESS`, whatever the other fields are. -/
theorem config_disabled_single_call :
    (∀ cmd : config_blending_command, cmd.config.enabled = false →
      execute_config_blending cmd =
        (status.of_type status_type.SUCCESS, [backend_call.glDisablei GL_BLEND 0])) ∧
    (∀ cmd : config_stencil_command, cmd.config.enabled = false →
      execute_config_stencil cmd =
        (status.of_type status_type.SUCCESS, [backend_call.glDisablei GL_STENCIL_TEST 0])) ∧
    (∀ cmd : config_depth_test_command, cmd.config.enabled = false →
      execute_config_depth_test cmd =
        (status.of_type status_type.SUCCESS, [backend_call.glDisablei GL_DEPTH_TEST 0])) := by
  refine ⟨?_, ?_, ?_⟩
  · intro cmd h
    simp [execute_config_blending, gl_set_flag, h]
  · intro cmd h
    simp [execute_config_stencil, gl_set_flag, h]
  · intro cmd h
    simp [execute_config_depth_test, gl_set_flag, h]

/-- What `execute_config_scissor` does for every command: it toggles the
capability `GL_STENCIL_TEST` at `viewport_index`, and when enabled sets the
indexed scissor rectangle.  No call names `GL_SCISSOR_TEST`. -/
theorem execute_config_scissor_calls (cmd : config_scissor_command) :
    execute_config_scissor cmd =
      (status.of_type status_type.SUCCESS,
        if cmd.config.enabled then
          [backend_call.glEnablei GL_STENCIL_TEST cmd.viewport_index,
            backend_call.glScissorIndexed cmd.viewport_index cmd.config.left cmd.config.bottom
              cmd.config.width cmd.config.height]
        else [backend_call.glDisablei GL_STENCIL_TEST cmd.viewport_index]) := by
  cases h : cmd.config.enabled <;> simp [execute_config_scissor, gl_set_flag, h]

/-- C8 (the code at the failing input): `CONFIG_SCISSOR` with `enabled = false`
on viewport 2 makes one call and returns `SUCCESS`, but the call disables the
stencil test, `glDisablei(GL_STENCIL_TEST, 2)`, not the scissor test, which is
a different capability. -/
theorem execute_config_scissor_disabled_toggles_stencil :
    execute_config_scissor ⟨2, ⟨false, 0, 0, 640, 480⟩⟩ =
      (⟨status_type.SUCCESS, ""⟩, [backend_call.glDisablei GL_STENCIL_TEST 2]) ∧
    backend_call.glDisablei GL_STENCIL_TEST 2 ≠ backend_call.glDisablei GL_SCISSOR_TEST 2 := by
  refine ⟨by rfl, ?_⟩
  decide

/-- C9 (the code at the failing input): `CONFIG_SCISSOR` with `enabled = true`
on viewport 1 enables the stencil test at index 1, `glEnablei(GL_STENCIL_TEST,
1)`, and then sets the scissor rectangle of viewport 1; the scissor test is
not among the calls. -/
theorem execute_config_scissor_enabled_toggles_stencil :
    execute_config_scissor ⟨1, ⟨true, 10, 20, 640, 480⟩⟩ =
      (⟨status_type.SUCCESS, ""⟩,
        [backend_call.glEnablei GL_STENCIL_TEST 1,
          backend_call.glScissorIndexed 1 10 20 640 480]) ∧
    backend_call.glEnablei GL_SCISSOR_TEST 1 ∉
      (execute_config_scissor ⟨1, ⟨true, 10, 20, 640, 480⟩⟩).2 := by
  refine ⟨by rfl, ?_⟩
  decide

/-- What `execute_config_blending` does with `enabled = true`: blending is
enabled at index 0 (the default argument of `gl_set_flag`), then the constant
colour, the equations and the factors are set, the last two for
`draw_buffer_index`. -/
theorem execute_config_blending_enabled (cmd : config_blending_command)
    (h : cmd.config.enabled = true) :
    execute_config_blending cmd =
      (status.of_type status_type.SUCCESS,
        [backend_call.glEnablei GL_BLEND 0,
          backend_call.glBlendColor cmd.config.constant_blend_r cmd.config.constant_blend_g
            cmd.config.constant_blend_b cmd.config.constant_blend_a,
          backend_call.glBlendEquationSeparatei cmd.draw_buffer_index
            (gl_blend_func cmd.config.rgb_equation) (gl_blend_func cmd.config.alpha_equation),
          backend_call.glBlendFuncSeparatei cmd.draw_buffer_index
            (gl_blend_factor cmd.config.source_blend_rgb)
            (gl_blend_factor cmd.config.dest_blend_rgb)
            (gl_blend_factor cmd.config.source_blend_alpha)
            (gl_blend_factor cmd.config.dest_blend_alpha)]) := by
  simp [execute_config_blending, gl_set_flag, h]

/-- C10 (the code at the failing input): `CONFIG_BLENDING` with
`enabled = true` for draw buffer 1 sets the constant colour and the equations
and factors of draw buffer 1 with the translated tokens, in the order stated,
and returns `SUCCESS`; but the first call enables blending for draw buffer 0,
`glEnablei(GL_BLEND, 0)`, not for draw buffer 1. -/
theorem execute_config_blending_enables_buffer_zero :
    execute_config_blending
        ⟨1, ⟨true, ⟨0⟩, ⟨0⟩, ⟨0⟩, ⟨0x3F800000⟩, blending_func.ADD, blending_func.MAX,
          blending_factor.SOURCE_ALPHA, blending_factor.ONE_MINUS_SOURCE_ALPHA,
          blending_factor.ONE, blending_factor.ZERO⟩⟩ =
      (⟨status_type.SUCCESS, ""⟩,
        [backend_call.glEnablei GL_BLEND 0,
          backend_call.glBlendColor ⟨0⟩ ⟨0⟩ ⟨0⟩ ⟨0x3F800000⟩,
          backend_call.glBlendEquationSeparatei 1 GL_FUNC_ADD GL_MAX,
          backend_call.glBlendFuncSeparatei 1 GL_SRC_ALPHA GL_ONE_MINUS_SRC_ALPHA GL_ONE
            GL_ZERO]) ∧
    backend_call.glEnablei GL_BLEND 1 ∉
      (execute_config_blending
        ⟨1, ⟨true, ⟨0⟩, ⟨0⟩, ⟨0⟩, ⟨0x3F800000⟩, blending_func.ADD, blending_func.MAX,
          blending_factor.SOURCE_ALPHA, blending_factor.ONE_MINUS_SOURCE_ALPHA,
          blending_factor.ONE, blending_factor.ZERO⟩⟩).2 := by
  refine ⟨by rfl, ?_⟩
  decide

/-! ### Face cull -/

/-- C11: `CONFIG_FACE_CULL` with `mode = DISABLED` makes exactly one call, the
disable toggle of face culling; with `BACK`, `FRONT` or `BOTH` it makes
exactly the enable toggle of face culling followed by `glCullFace` with the
back, front or front-and-back token; the status is `SUCCESS` in the four
cases. -/
theorem execute_config_face_cull_calls :
    execute_config_face_cull ⟨face_cull_mode.DISABLED⟩ =
      (⟨status_type.SUCCESS, ""⟩, [backend_call.glDisablei GL_CULL_FACE 0]) ∧
    execute_config_face_cull ⟨face_cull_mode.BACK⟩ =
      (⟨status_type.SUCCESS, ""⟩,
        [backend_call.glEnablei GL_CULL_FACE 0, backend_call.glCullFace GL_BACK]) ∧
    execute_config_face_cull ⟨face_cull_mode.FRONT⟩ =
      (⟨status_type.SUCCESS, ""⟩,
        [backend_call.glEnablei GL_CULL_FACE 0, backend_call.glCullFace GL_FRONT]) ∧
    execute_config_face_cull ⟨face_cull_mode.BOTH⟩ =
      (⟨status_type.SUCCESS, ""⟩,
        [backend_call.glEnablei GL_CULL_FACE 0, backend_call.glCullFace GL_FRONT_AND_BACK]) := by
  refine ⟨?_, ?_, ?_, ?_⟩ <;> rfl

/-! ### Clear window -/

/-- C12: for every mode, declared or not, `execute_clear_window` makes exactly
four calls in this order: clear colour `(color_r, color_g, color_b, color_a)`,
clear depth, clear stencil, and one `glClear` with the translated mask; the
status is `SUCCESS`.  The mask of a single mode is its bit (colour `0x4000`,
depth `0x100`, stencil `0x400`), the mask of a pair is the bitwise OR of its
two bits, and the mask of `ALL` is the OR of the three. -/
theorem execute_clear_window_calls (config : clear_values_config) :
    (∀ mode : clear_window_mode,
      execute_clear_window ⟨mode, config⟩ =
        (status.of_type status_type.SUCCESS,
          [backend_call.glClearColor config.color_r config.color_g config.color_b
              config.color_a,
            backend_call.glClearDepth config.depth,
            backend_call.glClearStencil config.stencil,
            backend_call.glClear (gl_clear_mask mode)])) ∧
    (GL_COLOR_BUFFER_BIT = 0x4000 ∧ GL_DEPTH_BUFFER_BIT = 0x100 ∧
      GL_STENCIL_BUFFER_BIT = 0x400) ∧
    gl_clear_mask .COLOR = GL_COLOR_BUFFER_BIT ∧
    gl_clear_mask .DEPTH = GL_DEPTH_BUFFER_BIT ∧
    gl_clear_mask .STENCIL = GL_STENCIL_BUFFER_BIT ∧
    gl_clear_mask .COLOR_AND_DEPTH = GL_COLOR_BUFFER_BIT ||| GL_DEPTH_BUFFER_BIT ∧
    gl_clear_mask .COLOR_AND_STENCIL = GL_COLOR_BUFFER_BIT ||| GL_STENCIL_BUFFER_BIT ∧
    gl_clear_mask .DEPTH_AND_STENCIL = GL_DEPTH_BUFFER_BIT ||| GL_STENCIL_BUFFER_BIT ∧
    gl_clear_mask .ALL =
      GL_COLOR_BUFFER_BIT ||| GL_DEPTH_BUFFER_BIT ||| GL_STENCIL_BUFFER_BIT := by
  refine ⟨fun mode => rfl, ⟨rfl, rfl, rfl⟩, rfl, rfl, rfl, rfl, rfl, rfl, rfl⟩

/-! ### Buffer upload: the discipline -/

/-- C13: on a registered, valid buffer, `UNSAFE_DIRECT`, `SAFE_STREAMING` and
`SAFE_ONE_TIME` make exactly one call, `upload_data_direct`,
`upload_data_staged` and `upload_data_temp_copy` respectively, with
`(upload_address, upload_data, upload_bytes)`, and the executor returns the
status of that operation unchanged; any other `upload_type` returns
`UNSUPPORTED` and makes no call. -/
theorem execute_buffer_upload_dispatch (impl : gl45_impl) (cmd : buffer_upload_command)
    (b : buffer_state)
    (hfind : impl.find_gl_buffer_state cmd.buffer_identifier = some b)
    (hvalid : b.valid = true) :
    (cmd.upload_type = buffer_upload_type.UNSAFE_DIRECT →
      execute_buffer_upload impl cmd =
        (impl.upload_data_direct b cmd.upload_address cmd.upload_data cmd.upload_bytes,
          [backend_call.upload_data_direct b cmd.upload_address cmd.upload_data
            cmd.upload_bytes])) ∧
    (cmd.upload_type = buffer_upload_type.SAFE_STREAMING →
      execute_buffer_upload impl cmd =
        (impl.upload_data_staged b cmd.upload_address cmd.upload_data cmd.upload_bytes,
          [backend_call.upload_data_staged b cmd.upload_address cmd.upload_data
            cmd.upload_bytes])) ∧
    (cmd.upload_type = buffer_upload_type.SAFE_ONE_TIME →
      execute_buffer_upload impl cmd =
        (impl.upload_data_temp_copy b cmd.upload_address cmd.upload_data cmd.upload_bytes,
          [backend_call.upload_data_temp_copy b cmd.upload_address cmd.upload_data
            cmd.upload_bytes])) ∧
    (cmd.upload_type = buffer_upload_type.undeclared →
      (execute_buffer_upload impl cmd).1.kind = status_type.UNSUPPORTED ∧
      (execute_buffer_upload impl cmd).2 = []) := by
  refine ⟨?_, ?_, ?_, ?_⟩ <;> intro h <;>
    simp [execute_buffer_upload, hfind, buffer_state.is_valid, hvalid, h]

/-- An instance of C13: a streaming upload of 16 bytes at address 64 of the
registered valid buffer `B`, on a backend whose staged upload reports
`BACKEND_FAILURE`. -/
theorem execute_buffer_upload_dispatch_witness :
    execute_buffer_upload
        ⟨[("B", ⟨7, 1024, true⟩)], fun _ _ => (status.of_type status_type.SUCCESS, 0),
          fun _ _ _ _ => status.of_type status_type.SUCCESS,
          fun _ _ _ _ => ⟨status_type.BACKEND_FAILURE, "device lost"⟩,
          fun _ _ _ _ => status.of_type status_type.SUCCESS,
          fun _ _ _ _ _ => status.of_type status_type.SUCCESS,
          fun _ _ _ => status.of_type status_type.SUCCESS⟩
        ⟨⟨"B"⟩, buffer_upload_type.SAFE_STREAMING, 64, 4096, 16⟩ =
      (⟨status_type.BACKEND_FAILURE, "device lost"⟩,
        [backend_call.upload_data_staged ⟨7, 1024, true⟩ 64 4096 16]) :=
  (execute_buffer_upload_dispatch
    ⟨[("B", ⟨7, 1024, true⟩)], fun _ _ => (status.of_type status_type.SUCCESS, 0),
      fun _ _ _ _ => status.of_type status_type.SUCCESS,
      fun _ _ _ _ => ⟨status_type.BACKEND_FAILURE, "device lost"⟩,
      fun _ _ _ _ => status.of_type status_type.SUCCESS,
      fun _ _ _ _ _ => status.of_type status_type.SUCCESS,
      fun _ _ _ => status.of_type status_type.SUCCESS⟩
    ⟨⟨"B"⟩, buffer_upload_type.SAFE_STREAMING, 64, 4096, 16⟩ ⟨7, 1024, true⟩
    (by rfl) rfl).2.1 rfl

/-! ### Draw family: bind, then draw -/

/-- C15: each of the four draw executors first binds the vertex specification
of its command, with `needs_indices = false` for `DRAW` and `DRAW_INDIRECT`
and `needs_indices = true` for `DRAW_INDEXED` and `DRAW_INDEXED_INDIRECT`; if
the bind status is an error the executor returns it unchanged and makes no
draw call; otherwise it makes exactly one draw call and returns `SUCCESS`. -/
theorem draw_family_binds_then_draws (w : Nat) (impl : gl45_impl) :
    (∀ cmd : draw_command,
      binds_then_draws (execute_draw_cmd impl cmd)
        (impl.bind_vertex_specification_state cmd.vertex_specification_source false).1
        cmd.vertex_specification_source false) ∧
    (∀ cmd : draw_indexed_command,
      binds_then_draws (execute_draw_indexed w impl cmd)
        (impl.bind_vertex_specification_state cmd.vertex_specification_source true).1
        cmd.vertex_specification_source true) ∧
    (∀ cmd : draw_indirect_command,
      binds_then_draws (execute_draw_indirect impl cmd)
        (impl.bind_vertex_specification_state cmd.vertex_specification_source false).1
        cmd.vertex_specification_source false) ∧
    (∀ cmd : draw_indexed_indirect_command,
      binds_then_draws (execute_draw_indexed_indirect impl cmd)
        (impl.bind_vertex_specification_state cmd.vertex_specification_source true).1
        cmd.vertex_specification_source true) := by
  refine ⟨?_, ?_, ?_, ?_⟩
  · intro cmd
    refine ⟨fun h => ?_, fun h => ⟨backend_call.glDrawArraysInstancedBaseInstance (gl_draw_mode cmd.mode)
        cmd.start_vertex cmd.count cmd.instances cmd.start_instance, rfl, ?_⟩⟩
    · simp only [execute_draw_cmd, h, if_true]
    · simp only [execute_draw_cmd, h]
      rfl
  · intro cmd
    refine ⟨fun h => ?_, fun h => ⟨backend_call.glDrawElementsInstancedBaseVertexBaseInstance
        (gl_draw_mode cmd.mode) cmd.count (gl_index_size cmd.index_type)
        (index_pointer w cmd.start_index (gl_type_size (gl_index_size cmd.index_type))
          (impl.bind_vertex_specification_state cmd.vertex_specification_source true).2)
        cmd.instances cmd.vertex_index_offset cmd.start_instance, rfl, ?_⟩⟩
    · simp only [execute_draw_indexed, h, if_true]
    · simp only [execute_draw_indexed, h]
      rfl
  · intro cmd
    refine ⟨fun h => ?_, fun h => ⟨backend_call.glMultiDrawArraysIndirect (gl_draw_mode cmd.mode)
        ((cmd.indirect_source_offset * sizeof_draw_arrays_indirect_params) % 2 ^ 64)
        cmd.draw_count 0, rfl, ?_⟩⟩
    · simp only [execute_draw_indirect, h, if_true]
    · simp only [execute_draw_indirect, h]
      rfl
  · intro cmd
    refine ⟨fun h => ?_, fun h => ⟨backend_call.glMultiDrawElementsIndirect (gl_draw_mode cmd.mode)
        (gl_index_size cmd.index_type)
        ((cmd.indirect_source_offset * sizeof_draw_elements_indirect_params) % 2 ^ 64)
        cmd.draw_count 0, rfl, ?_⟩⟩
    · simp only [execute_draw_indexed_indirect, h, if_true]
    · simp only [execute_draw_indexed_indirect, h]
      rfl

/-- Two instances of C15: an indexed draw whose bind fails with
`BROKEN_SOURCE` returns that status, message included, after the bind call
alone; and an indirect draw whose bind succeeds makes one draw call. -/
theorem draw_family_binds_then_draws_witness :
    execute_draw_indexed 32 (mock_impl [] ⟨status_type.BROKEN_SOURCE, "no index buffer"⟩ 0)
        ⟨⟨"mesh"⟩, draw_mode.TRIANGLES, draw_indexed_index_type.UINT_16, 0, 3, 1, 0, 0⟩ =
      (⟨status_type.BROKEN_SOURCE, "no index buffer"⟩,
        [backend_call.bind_vertex_specification_state ⟨"mesh"⟩ true]) ∧
    ∃ d : backend_call, d.is_draw = true ∧
      execute_draw_indirect (mock_impl [] (status.of_type status_type.SUCCESS) 0)
          ⟨⟨"mesh"⟩, draw_mode.TRIANGLE_STRIP, 2, 5⟩ =
        (status.of_type status_type.SUCCESS,
          [backend_call.bind_vertex_specification_state ⟨"mesh"⟩ false, d]) :=
  ⟨((draw_family_binds_then_draws 32
        (mock_impl [] ⟨status_type.BROKEN_SOURCE, "no index buffer"⟩ 0)).2.1
      ⟨⟨"mesh"⟩, draw_mode.TRIANGLES, draw_indexed_index_type.UINT_16, 0, 3, 1, 0, 0⟩).1 rfl,
    ((draw_family_binds_then_draws 32
        (mock_impl [] (status.of_type status_type.SUCCESS) 0)).2.2.1
      ⟨⟨"mesh"⟩, draw_mode.TRIANGLE_STRIP, 2, 5⟩).2 rfl⟩

/-! ### Indirect draws -/

/-- C16: when the bind succeeds, `DRAW_INDIRECT` and `DRAW_INDEXED_INDIRECT`
make one multi-draw indirect call with the translated topology, the byte
offset `indirect_source_offset × sizeof(record)` (the array record for the
first, the element record for the second), `draw_count` draws and stride 0;
the indexed variant also passes the translated index element type.  The
product is taken in the 64-bit `size_t`, so for a 32-bit
`indirect_source_offset` it does not wrap. -/
theorem execute_draw_indirect_calls (impl : gl45_impl) :
    (∀ cmd : draw_indirect_command,
      is_error_status
        (impl.bind_vertex_specification_state cmd.vertex_specification_source false).1 = false →
      cmd.indirect_source_offset < 2 ^ 32 →
      execute_draw_indirect impl cmd =
        (status.of_type status_type.SUCCESS,
          [backend_call.bind_vertex_specification_state cmd.vertex_specification_source false,
            backend_call.glMultiDrawArraysIndirect (gl_draw_mode cmd.mode)
              (cmd.indirect_source_offset * sizeof_draw_arrays_indirect_params)
              cmd.draw_count 0])) ∧
    (∀ cmd : draw_indexed_indirect_command,
      is_error_status
        (impl.bind_vertex_specification_state cmd.vertex_specification_source true).1 = false →
      cmd.indirect_source_offset < 2 ^ 32 →
      execute_draw_indexed_indirect impl cmd =
        (status.of_type status_type.SUCCESS,
          [backend_call.bind_vertex_specification_state cmd.vertex_specification_source true,
            backend_call.glMultiDrawElementsIndirect (gl_draw_mode cmd.mode)
              (gl_index_size cmd.index_type)
              (cmd.indirect_source_offset * sizeof_draw_elements_indirect_params)
              cmd.draw_count 0])) := by
  constructor
  · intro cmd hbind hoff
    have hlt : cmd.indirect_source_offset * sizeof_draw_arrays_indirect_params < 2 ^ 64 := by
      simp only [sizeof_draw_arrays_indirect_params]
      norm_num at hoff ⊢
      omega
    simp only [execute_draw_indirect, hbind, Nat.mod_eq_of_lt hlt]
    rfl
  · intro cmd hbind hoff
    have hlt : cmd.indirect_source_offset * sizeof_draw_elements_indirect_params < 2 ^ 64 := by
      simp only [sizeof_draw_elements_indirect_params]
      norm_num at hoff ⊢
      omega
    simp only [execute_draw_indexed_indirect, hbind, Nat.mod_eq_of_lt hlt]
    rfl

/-- Two instances of C16, at the largest 32-bit offset: `4294967295 × 16` and
`4294967295 × 20` are passed as they are. -/
theorem execute_draw_indirect_calls_witness :
    execute_draw_indirect (mock_impl [] (status.of_type status_type.SUCCESS) 0)
        ⟨⟨"mesh"⟩, draw_mode.TRIANGLE_FAN, 4294967295, 5⟩ =
      (status.of_type status_type.SUCCESS,
        [backend_call.bind_vertex_specification_state ⟨"mesh"⟩ false,
          backend_call.glMultiDrawArraysIndirect (gl_draw_mode draw_mode.TRIANGLE_FAN)
            (4294967295 * sizeof_draw_arrays_indirect_params) 5 0]) ∧
    execute_draw_indexed_indirect (mock_impl [] (status.of_type status_type.SUCCESS) 0)
        ⟨⟨"mesh"⟩, draw_mode.TRIANGLES, draw_indexed_index_type.UINT_8, 4294967295, 5⟩ =
      (status.of_type status_type.SUCCESS,
        [backend_call.bind_vertex_specification_state ⟨"mesh"⟩ true,
          backend_call.glMultiDrawElementsIndirect (gl_draw_mode draw_mode.TRIANGLES)
            (gl_index_size draw_indexed_index_type.UINT_8)
            (4294967295 * sizeof_draw_elements_indirect_params) 5 0]) :=
  ⟨(execute_draw_indirect_calls (mock_impl [] (status.of_type status_type.SUCCESS) 0)).1
      ⟨⟨"mesh"⟩, draw_mode.TRIANGLE_FAN, 4294967295, 5⟩ rfl (by decide),
    (execute_draw_indirect_calls (mock_impl [] (status.of_type status_type.SUCCESS) 0)).2
      ⟨⟨"mesh"⟩, draw_mode.TRIANGLES, draw_indexed_index_type.UINT_8, 4294967295, 5⟩ rfl
      (by decide)⟩

/-! ### Buffer upload: range overflow -/

/-- C14: with the upload operations of the registry as the spec describes
them, a `BUFFER_UPLOAD` on a registered, valid buffer of size `S` with
`upload_address + upload_bytes > S` returns `RANGE_OVERFLOW` for each of the
three disciplines, and no write to the buffer is issued. -/
theorem execute_buffer_upload_range_overflow (impl : gl45_impl) (device_ok : Bool)
    (cmd : buffer_upload_command) (b : buffer_state)
    (hfind : impl.find_gl_buffer_state cmd.buffer_identifier = some b)
    (hvalid : b.valid = true)
    (htype : cmd.upload_type ≠ buffer_upload_type.undeclared)
    (hover : b.size < cmd.upload_address + cmd.upload_bytes) :
    (execute_buffer_upload (impl.with_registry_uploads device_ok) cmd).1.kind =
      status_type.RANGE_OVERFLOW ∧
    issued_writes device_ok
      (execute_buffer_upload (impl.with_registry_uploads device_ok) cmd).2 = [] := by
  have hfind2 : (impl.with_registry_uploads device_ok).find_gl_buffer_state
      cmd.buffer_identifier = some b := hfind
  have hrange : ¬ cmd.upload_address + cmd.upload_bytes ≤ b.size := by omega
  have hup : b.upload_data device_ok cmd.upload_address cmd.upload_data cmd.upload_bytes =
      (status.of_type status_type.RANGE_OVERFLOW, []) := by
    simp [buffer_state.upload_data, buffer_state.is_in_buffer_range, hrange]
  cases hty : cmd.upload_type with
  | undeclared => exact absurd hty htype
  | UNSAFE_DIRECT =>
    simp only [execute_buffer_upload, hfind2, buffer_state.is_valid, hvalid, hty]
    simp [gl45_impl.with_registry_uploads, issued_writes, backend_call.buffer_writes, hup,
      status.of_type]
  | SAFE_STREAMING =>
    simp only [execute_buffer_upload, hfind2, buffer_state.is_valid, hvalid, hty]
    simp [gl45_impl.with_registry_uploads, issued_writes, backend_call.buffer_writes, hup,
      status.of_type]
  | SAFE_ONE_TIME =>
    simp only [execute_buffer_upload, hfind2, buffer_state.is_valid, hvalid, hty]
    simp [gl45_impl.with_registry_uploads, issued_writes, backend_call.buffer_writes, hup,
      status.of_type]

/-- An instance of C14: a one-time upload of 25 bytes at address 1000 of the
1024-byte buffer `B`. -/
theorem execute_buffer_upload_range_overflow_witness :
    (execute_buffer_upload
        ((mock_impl [("B", ⟨7, 1024, true⟩)] (status.of_type status_type.SUCCESS)
          0).with_registry_uploads true)
        ⟨⟨"B"⟩, buffer_upload_type.SAFE_ONE_TIME, 1000, 4096, 25⟩).1.kind =
      status_type.RANGE_OVERFLOW ∧
    issued_writes true
      (execute_buffer_upload
        ((mock_impl [("B", ⟨7, 1024, true⟩)] (status.of_type status_type.SUCCESS)
          0).with_registry_uploads true)
        ⟨⟨"B"⟩, buffer_upload_type.SAFE_ONE_TIME, 1000, 4096, 25⟩).2 = [] :=
  execute_buffer_upload_range_overflow
    (mock_impl [("B", ⟨7, 1024, true⟩)] (status.of_type status_type.SUCCESS) 0) true
    ⟨⟨"B"⟩, buffer_upload_type.SAFE_ONE_TIME, 1000, 4096, 25⟩ ⟨7, 1024, true⟩
    (by rfl) rfl (by decide) (by decide)

/-- In range the same upload is written: the modelled operation is not one
that rejects everything. -/
theorem execute_buffer_upload_in_range_writes :
    execute_buffer_upload
        ((mock_impl [("B", ⟨7, 1024, true⟩)] (status.of_type status_type.SUCCESS)
          0).with_registry_uploads true)
        ⟨⟨"B"⟩, buffer_upload_type.SAFE_ONE_TIME, 1000, 4096, 24⟩ =
      (status.of_type status_type.SUCCESS,
        [backend_call.upload_data_temp_copy ⟨7, 1024, true⟩ 1000 4096 24]) ∧
    issued_writes true
      (execute_buffer_upload
        ((mock_impl [("B", ⟨7, 1024, true⟩)] (status.of_type status_type.SUCCESS)
          0).with_registry_uploads true)
        ⟨⟨"B"⟩, buffer_upload_type.SAFE_ONE_TIME, 1000, 4096, 24⟩).2 =
      [⟨7, 1000, 4096, 24⟩] := by
  constructor
  · rfl
  · rfl

end gl45

/-! ### Shader front-end: program lookup -/

/-- C17: `get_shader_data` returns `UNKNOWN_NAME` when the name is not a key of
`linked_shaders`, whatever the API is, and `UNSUPPORTED` when the name is a key
and `get_target_index_for_api` yields `-1`; in both cases the artifact is left
as it was.  `GL45` has target slot 0 and is the only API with a slot. -/
theorem get_shader_data_lookup (lib : artifact_answers) (st : slang_state)
    (shader_name : String) (out : shader_data) :
    (∀ api : graphics_api, st.linked_shaders.lookup shader_name = none →
      get_shader_data lib st shader_name api out =
        some (⟨status_type.UNKNOWN_NAME,
          "No linked slang shader called \x27" ++ shader_name ++ "\x27 exists."⟩, out)) ∧
    (∀ (api : graphics_api) (program : Option Nat),
      st.linked_shaders.lookup shader_name = some program →
      get_target_index_for_api api = -1 →
      get_shader_data lib st shader_name api out =
        some (⟨status_type.UNSUPPORTED,
          "API selected is not currently supported for slang shaders"⟩, out)) ∧
    get_target_index_for_api graphics_api.GL45 = 0 ∧
    (∀ api : graphics_api, get_target_index_for_api api ≠ -1 ↔ api = graphics_api.GL45) := by
  refine ⟨?_, ?_, rfl, ?_⟩
  · intro api h
    simp only [get_shader_data, h]
  · intro api program h hidx
    simp only [get_shader_data, h, hidx, if_true]
  · intro api
    cases api <;> decide

/-- Two instances of C17, on a state in which the program `p` is linked: the
name `q` is unknown for `GL45`, and `p` is unsupported for another API. -/
theorem get_shader_data_lookup_witness :
    get_shader_data ⟨some [1, 2, 3], none, none⟩ ⟨some 1, some 2, [("m", 3)], [("p", some 4)], [2]⟩
        "q" graphics_api.GL45 ⟨[], 0⟩ =
      some (⟨status_type.UNKNOWN_NAME, "No linked slang shader called \x27q\x27 exists."⟩,
        ⟨[], 0⟩) ∧
    get_shader_data ⟨some [1, 2, 3], none, none⟩ ⟨some 1, some 2, [("m", 3)], [("p", some 4)], [2]⟩
        "p" graphics_api.other ⟨[], 0⟩ =
      some (⟨status_type.UNSUPPORTED,
        "API selected is not currently supported for slang shaders"⟩, ⟨[], 0⟩) :=
  ⟨(get_shader_data_lookup ⟨some [1, 2, 3], none, none⟩
      ⟨some 1, some 2, [("m", 3)], [("p", some 4)], [2]⟩ "q" ⟨[], 0⟩).1 graphics_api.GL45
      (by rfl),
    (get_shader_data_lookup ⟨some [1, 2, 3], none, none⟩
      ⟨some 1, some 2, [("m", 3)], [("p", some 4)], [2]⟩ "p" ⟨[], 0⟩).2.1 graphics_api.other
      (some 4) (by rfl) rfl⟩

/-! ### Shader front-end: linking with a missing module -/

theorem additional_components_first_missing (loaded_modules : List (String × Nat))
    (names : List String) (missing : String)
    (h : names.find? (fun n => (loaded_modules.lookup n).isNone) = some missing) :
    additional_components loaded_modules names = Except.error missing := by
  induction names with
  | nil => simp at h
  | cons n rest ih =>
    cases hn : loaded_modules.lookup n with
    | none =>
      simp only [List.find?_cons, hn, Option.isNone_none] at h
      simp only [Option.some.injEq] at h
      subst h
      simp only [additional_components, hn]
    | some m =>
      simp only [List.find?_cons, hn, Option.isNone_some] at h
      simp only [additional_components, hn, ih h]

/-- C18: `link_slang_shader` returns `UNKNOWN_NAME` when `entry_point_module`
is not a key of `loaded_modules`; and when the entry module and the entry
point are found but some name of `additional_modules` is not a key, it returns
`UNKNOWN_NAME` with the message naming the first such name.  In both cases
the state, `linked_shaders` included, is left as it was. -/
theorem link_slang_shader_unknown_module (lib : link_answers) (st : slang_state)
    (shader_name entry_point_module entry_point_name : String)
    (additional_modules : List String) :
    (st.loaded_modules.lookup entry_point_module = none →
      link_slang_shader lib st shader_name entry_point_module entry_point_name
          additional_modules =
        some (⟨status_type.UNKNOWN_NAME,
          "No loaded slang module called \x27" ++ entry_point_module ++ "\x27 found."⟩, st)) ∧
    (∀ (entry : Nat) (missing : String),
      st.loaded_modules.lookup entry_point_module = some entry →
      SLANG_FAILED lib.findEntryPointByName_result = false →
      additional_modules.find? (fun n => (st.loaded_modules.lookup n).isNone) = some missing →
      link_slang_shader lib st shader_name entry_point_module entry_point_name
          additional_modules =
        some (⟨status_type.UNKNOWN_NAME,
          "No loaded slang module called \x27" ++ missing ++ "\x27 found."⟩, st)) := by
  constructor
  · intro h
    simp only [link_slang_shader, h, unknown_module_message]
  · intro entry missing he hf hm
    simp only [link_slang_shader, he, hf, additional_components_first_missing _ _ _ hm,
      unknown_module_message]
    rfl

/-- Two instances of C18 on a state with the modules `m` and `util` loaded and a
program `p` linked: an entry module `nope` that is not loaded, and additional
modules `util`, `a`, `b` of which `a` is the first that is not loaded.  The
state returned is the state given. -/
theorem link_slang_shader_unknown_module_witness :
    link_slang_shader ⟨0, some 5, none, some 6, none⟩
        ⟨some 1, some 2, [("m", 3), ("util", 7)], [("p", some 4)], [2]⟩
        "p" "nope" "main" [] =
      some (⟨status_type.UNKNOWN_NAME, "No loaded slang module called \x27nope\x27 found."⟩,
        ⟨some 1, some 2, [("m", 3), ("util", 7)], [("p", some 4)], [2]⟩) ∧
    link_slang_shader ⟨0, some 5, none, some 6, none⟩
        ⟨some 1, some 2, [("m", 3), ("util", 7)], [("p", some 4)], [2]⟩
        "p" "m" "main" ["util", "a", "b"] =
      some (⟨status_type.UNKNOWN_NAME, "No loaded slang module called \x27a\x27 found."⟩,
        ⟨some 1, some 2, [("m", 3), ("util", 7)], [("p", some 4)], [2]⟩) :=
  ⟨(link_slang_shader_unknown_module ⟨0, some 5, none, some 6, none⟩
      ⟨some 1, some 2, [("m", 3), ("util", 7)], [("p", some 4)], [2]⟩
      "p" "nope" "main" []).1 (by rfl),
    (link_slang_shader_unknown_module ⟨0, some 5, none, some 6, none⟩
      ⟨some 1, some 2, [("m", 3), ("util", 7)], [("p", some 4)], [2]⟩
      "p" "m" "main" ["util", "a", "b"]).2 3 "a" (by rfl) (by rfl) (by rfl)⟩

/-! ### Shader front-end: diagnostics on load -/

/-- C19: when the library writes a diagnostics blob during `load_slang_module`
(on a live session), the result is `BACKEND_FAILURE` with a message that
contains the diagnostic text, whether or not a module handle was returned,
and the state, `loaded_modules` included, is left as it was. -/
theorem load_slang_module_diagnostics (module_handle : Option Nat) (msg : String)
    (st : slang_state) (name source : String) (session : Nat)
    (hactive : st.active_slang_session = some session)
    (hlive : session ∈ st.live_sessions) :
    ∃ text : String,
      load_slang_module ⟨module_handle, some msg⟩ st name source =
        some (⟨status_type.BACKEND_FAILURE, text⟩, st) ∧
      gl45.message_contains text msg := by
  refine ⟨"Slang module loading \x27" ++ name ++ "\x27 failed with error: \x27" ++ msg ++
    "\x27", ?_, ?_⟩
  · simp only [load_slang_module, hactive, hlive, if_true]
  · exact ⟨"Slang module loading \x27" ++ name ++ "\x27 failed with error: \x27", "\x27",
      rfl⟩

/-- An instance of C19: the library returns the module handle 9 together with
a warning; the module `m` already loaded keeps its handle 3. -/
theorem load_slang_module_diagnostics_witness :
    ∃ text : String,
      load_slang_module ⟨some 9, some "warning: unused variable"⟩
          ⟨some 1, some 2, [("m", 3)], [], [2]⟩ "m" "void main();" =
        some (⟨status_type.BACKEND_FAILURE, text⟩, ⟨some 1, some 2, [("m", 3)], [], [2]⟩) ∧
      gl45.message_contains text "warning: unused variable" :=
  load_slang_module_diagnostics (some 9) "warning: unused variable"
    ⟨some 1, some 2, [("m", 3)], [], [2]⟩ "m" "void main();" 2 rfl (by decide)

/-! ### Shader front-end: re-initialisation -/

theorem create_session_result (lib : init_answers) (st st' : slang_state) (s : status)
    (hlive : st.live_sessions = []) (hmods : st.loaded_modules = [])
    (h : init_slang_session.create_session lib st = some (s, st')) :
    (s.kind = status_type.BACKEND_FAILURE ∧ st'.live_sessions = [] ∧
      st'.loaded_modules = []) ∨
    (s.kind = status_type.SUCCESS ∧
      ∃ x, st'.active_slang_session = some x ∧ st'.live_sessions = [x] ∧
        st'.loaded_modules = []) := by
  unfold init_slang_session.create_session at h
  split at h
  · simp only [Option.some.injEq, Prod.mk.injEq] at h
    obtain ⟨rfl, rfl⟩ := h
    exact Or.inl ⟨rfl, hlive, hmods⟩
  · simp only [Option.some.injEq, Prod.mk.injEq] at h
    obtain ⟨rfl, rfl⟩ := h
    exact Or.inr ⟨rfl, lib.createSession_session, rfl, by simp [hlive], hmods⟩

theorem replace_session_result (lib : init_answers) (st st' : slang_state) (s : status)
    (hinv : (st.live_sessions = [] ∧ st.loaded_modules = []) ∨
      ∃ x, st.active_slang_session = some x ∧ st.live_sessions = [x])
    (h : init_slang_session.replace_session lib st = some (s, st')) :
    (s.kind = status_type.BACKEND_FAILURE ∧ st'.live_sessions = [] ∧
      st'.loaded_modules = []) ∨
    (s.kind = status_type.SUCCESS ∧
      ∃ x, st'.active_slang_session = some x ∧ st'.live_sessions = [x] ∧
        st'.loaded_modules = []) := by
  unfold init_slang_session.replace_session at h
  split at h
  · rename_i hnone
    rcases hinv with ⟨hl, hm⟩ | ⟨x, hx, -⟩
    · exact create_session_result lib st st' s hl hm h
    · rw [hnone] at hx
      cases hx
  · rename_i session hsome
    split at h
    · rename_i hmem
      have hlive : st.live_sessions = [session] := by
        rcases hinv with ⟨hl, -⟩ | ⟨x, hx, hl⟩
        · rw [hl] at hmem
          cases hmem
        · rw [hsome] at hx
          cases hx
          exact hl
      have herase : st.live_sessions.erase session = [] := by
        rw [hlive]
        simp
      split at h
      · simp only [Option.some.injEq, Prod.mk.injEq] at h
        obtain ⟨rfl, rfl⟩ := h
        exact Or.inl ⟨rfl, herase, rfl⟩
      · exact create_session_result lib _ st' s herase rfl h
    · cases h

/-- In every reachable state either no session is live and no module is
loaded, or the active session is the one live session. -/
theorem reachable_session_invariant (st : slang_state) (h : reachable st) :
    (st.live_sessions = [] ∧ st.loaded_modules = []) ∨
      ∃ x, st.active_slang_session = some x ∧ st.live_sessions = [x] := by
  induction h with
  | initial => exact Or.inl ⟨rfl, rfl⟩
  | init lib st st' s _ hrun ih =>
    have key : (s.kind = status_type.BACKEND_FAILURE ∧
        ((st'.live_sessions = [] ∧ st'.loaded_modules = []) ∨
          ∃ x, st'.active_slang_session = some x ∧ st'.live_sessions = [x])) ∨
        (s.kind = status_type.SUCCESS ∧
          ∃ x, st'.active_slang_session = some x ∧ st'.live_sessions = [x] ∧
            st'.loaded_modules = []) := by
      unfold init_slang_session at hrun
      split at hrun
      · split at hrun
        · simp only [Option.some.injEq, Prod.mk.injEq] at hrun
          obtain ⟨rfl, rfl⟩ := hrun
          exact Or.inl ⟨rfl, ih⟩
        · rcases replace_session_result lib
            ⟨some lib.createGlobalSession_context, st.active_slang_session, st.loaded_modules,
              st.linked_shaders, st.live_sessions⟩ st' s ih hrun with ⟨hk, hl, hm⟩ | hok
          · exact Or.inl ⟨hk, Or.inl ⟨hl, hm⟩⟩
          · exact Or.inr hok
      · rcases replace_session_result lib _ st' s ih hrun with ⟨hk, hl, hm⟩ | hok
        · exact Or.inl ⟨hk, Or.inl ⟨hl, hm⟩⟩
        · exact Or.inr hok
    rcases key with ⟨-, hinv⟩ | ⟨-, x, hx, hl, -⟩
    · exact hinv
    · exact Or.inr ⟨x, hx, hl⟩
  | load lib st st' name source s _ hrun ih =>
    unfold load_slang_module at hrun
    split at hrun
    · cases hrun
    · rename_i session hsome
      split at hrun
      · rename_i hmem
        have hlive : st.live_sessions = [session] := by
          rcases ih with ⟨hl, -⟩ | ⟨x, hx, hl⟩
          · rw [hl] at hmem
            cases hmem
          · rw [hsome] at hx
            cases hx
            exact hl
        split at hrun
        · simp only [Option.some.injEq, Prod.mk.injEq] at hrun
          obtain ⟨-, rfl⟩ := hrun
          exact Or.inr ⟨session, hsome, hlive⟩
        · split at hrun
          · cases hrun
          · simp only [Option.some.injEq, Prod.mk.injEq] at hrun
            obtain ⟨-, rfl⟩ := hrun
            exact Or.inr ⟨session, hsome, hlive⟩
      · cases hrun
  | link lib st st' shader_name entry_point_module entry_point_name additional_modules s _
      hrun ih =>
    have hsame : st'.active_slang_session = st.active_slang_session ∧
        st'.live_sessions = st.live_sessions ∧ st'.loaded_modules = st.loaded_modules := by
      unfold link_slang_shader at hrun
      repeat' split at hrun
      all_goals first
        | (simp only [Option.some.injEq, Prod.mk.injEq] at hrun
           obtain ⟨-, rfl⟩ := hrun
           exact ⟨rfl, rfl, rfl⟩)
        | cases hrun
    obtain ⟨ha, hl, hm⟩ := hsame
    rw [ha, hl, hm]
    exact ih

/-- From a state that satisfies the invariant, an `init_slang_session` that
returns either fails with `BACKEND_FAILURE` or leaves one live session, the
active one, and no module. -/
theorem init_slang_session_result (lib : init_answers) (st st' : slang_state) (s : status)
    (hinv : (st.live_sessions = [] ∧ st.loaded_modules = []) ∨
      ∃ x, st.active_slang_session = some x ∧ st.live_sessions = [x])
    (hrun : init_slang_session lib st = some (s, st')) :
    (s.kind = status_type.BACKEND_FAILURE) ∨
      (∃ x, st'.active_slang_session = some x ∧ st'.live_sessions = [x] ∧
        st'.loaded_modules = []) := by
  unfold init_slang_session at hrun
  split at hrun
  · split at hrun
    · simp only [Option.some.injEq, Prod.mk.injEq] at hrun
      obtain ⟨rfl, rfl⟩ := hrun
      exact Or.inl rfl
    · rcases replace_session_result lib
        ⟨some lib.createGlobalSession_context, st.active_slang_session, st.loaded_modules,
          st.linked_shaders, st.live_sessions⟩ st' s hinv hrun with ⟨hk, -, -⟩ | ⟨-, h⟩
      · exact Or.inl hk
      · exact Or.inr h
  · rcases replace_session_result lib _ st' s hinv hrun with ⟨hk, -, -⟩ | ⟨-, h⟩
    · exact Or.inl hk
    · exact Or.inr h

/-- C20: from every reachable state of the front-end, an `init_slang_session`
that returns `SUCCESS` leaves exactly one live session, the active one, and an
empty `loaded_modules` map.  The state before the call may be the one at
program start or the result of any calls of `init_slang_session`,
`load_slang_module` and `link_slang_shader` that returned. -/
theorem init_slang_session_one_live_session (lib : init_answers) (st st' : slang_state)
    (s : status) (hreach : reachable st)
    (hrun : init_slang_session lib st = some (s, st'))
    (hok : s.kind = status_type.SUCCESS) :
    (∃ session, st'.active_slang_session = some session ∧ st'.live_sessions = [session]) ∧
    st'.live_sessions.length = 1 ∧
    st'.loaded_modules = [] := by
  rcases init_slang_session_result lib st st' s (reachable_session_invariant st hreach) hrun
    with hk | ⟨x, hx, hl, hm⟩
  · rw [hk] at hok
    cases hok
  · exact ⟨⟨x, hx, hl⟩, by rw [hl]; rfl, hm⟩

/-- An instance of C20: from the state at program start, `init_slang_session`
(context 1, session 2), then `load_slang_module` of `m` (handle 3), then
`init_slang_session` again (session 5): the second call returns `SUCCESS` and
leaves the one live session 5 and no module. -/
theorem init_slang_session_one_live_session_witness :
    init_slang_session ⟨0, 1, 0, 0, 5⟩ ⟨some 1, some 2, [("m", 3)], [], [2]⟩ =
      some (status.of_type status_type.SUCCESS, ⟨some 1, some 5, [], [], [5]⟩) ∧
    (∃ session, (⟨some 1, some 5, [], [], [5]⟩ : slang_state).active_slang_session =
        some session ∧
      (⟨some 1, some 5, [], [], [5]⟩ : slang_state).live_sessions = [session]) ∧
    (⟨some 1, some 5, [], [], [5]⟩ : slang_state).live_sessions.length = 1 ∧
    (⟨some 1, some 5, [], [], [5]⟩ : slang_state).loaded_modules = [] :=
  ⟨by rfl,
    init_slang_session_one_live_session ⟨0, 1, 0, 0, 5⟩
      ⟨some 1, some 2, [("m", 3)], [], [2]⟩ ⟨some 1, some 5, [], [], [5]⟩
      (status.of_type status_type.SUCCESS)
      (reachable.load ⟨some 3, none⟩ ⟨some 1, some 2, [], [], [2]⟩
        ⟨some 1, some 2, [("m", 3)], [], [2]⟩ "m" "void main();"
        (status.of_type status_type.SUCCESS)
        (reachable.init ⟨0, 1, 0, 0, 2⟩ slang_state.initial ⟨some 1, some 2, [], [], [2]⟩
          (status.of_type status_type.SUCCESS) reachable.initial (by rfl))
        (by rfl))
      (by rfl) rfl⟩

/-- Two consecutive `init_slang_session` calls that succeed, with any number of
successful `load_slang_module` calls in between, end with one live session and
no module. -/
theorem init_twice_one_live_session (lib₁ lib₂ : init_answers)
    (loads : List (load_answers × String × String)) (st₀ st₁ st₃ : slang_state)
    (s₁ s₃ : status) (hreach : reachable st₀)
    (h₁ : init_slang_session lib₁ st₀ = some (s₁, st₁))
    (st₂ : slang_state)
    (hloads : loads.foldlM
      (fun st l => (load_slang_module l.1 st l.2.1 l.2.2).map Prod.snd) st₁ = some st₂)
    (h₃ : init_slang_session lib₂ st₂ = some (s₃, st₃))
    (hok : s₃.kind = status_type.SUCCESS) :
    (∃ session, st₃.active_slang_session = some session ∧ st₃.live_sessions = [session]) ∧
    st₃.loaded_modules = [] := by
  have hr₁ : reachable st₁ := reachable.init lib₁ st₀ st₁ s₁ hreach h₁
  have hr₂ : reachable st₂ := by
    clear h₁ h₃
    induction loads generalizing st₁ with
    | nil =>
      simp only [List.foldlM, Option.pure_def, Option.some.injEq] at hloads
      subst hloads
      exact hr₁
    | cons l rest ih =>
      simp only [List.foldlM, Option.bind_eq_bind] at hloads
      cases hl : load_slang_module l.1 st₁ l.2.1 l.2.2 with
      | none => simp [hl] at hloads
      | some r =>
        simp only [hl, Option.map_some', Option.some_bind] at hloads
        exact ih r.2 hloads (reachable.load l.1 st₁ r.2 l.2.1 l.2.2 r.1 hr₁ hl)
  rcases init_slang_session_result lib₂ st₂ st₃ s₃ (reachable_session_invariant st₂ hr₂) h₃
    with hk | ⟨x, hx, hl, hm⟩
  · rw [hk] at hok
    cases hok
  · exact ⟨⟨x, hx, hl⟩, hm⟩

namespace gl45

/-! ### Stencil -/

/-- C22: `CONFIG_STENCIL` with `enabled = true` makes exactly these calls, in
this order: enable the stencil test; `glStencilFuncSeparate` with the
translated `test_func`, `reference` and `test_mask`; `glStencilMaskSeparate`
with `write_mask`; `glStencilOpSeparate` with the translated `stencil_fail_op`,
`depth_fail_op` and `pixel_pass_op`; the three setters take the same
translated facing (front, back, or front-and-back for `BOTH`); the status is
`SUCCESS`. -/
theorem execute_config_stencil_enabled (cmd : config_stencil_command)
    (h : cmd.config.enabled = true) :
    execute_config_stencil cmd =
      (status.of_type status_type.SUCCESS,
        [backend_call.glEnablei GL_STENCIL_TEST 0,
          backend_call.glStencilFuncSeparate (gl_stencil_facing cmd.for_facing)
            (gl_stencil_test_func cmd.config.test_func) cmd.config.reference
            cmd.config.test_mask,
          backend_call.glStencilMaskSeparate (gl_stencil_facing cmd.for_facing)
            cmd.config.write_mask,
          backend_call.glStencilOpSeparate (gl_stencil_facing cmd.for_facing)
            (gl_stencil_test_op cmd.config.stencil_fail_op)
            (gl_stencil_test_op cmd.config.depth_fail_op)
            (gl_stencil_test_op cmd.config.pixel_pass_op)]) ∧
    gl_stencil_facing stencil_facing.FRONT = GL_FRONT ∧
    gl_stencil_facing stencil_facing.BACK = GL_BACK ∧
    gl_stencil_facing stencil_facing.BOTH = GL_FRONT_AND_BACK := by
  refine ⟨?_, rfl, rfl, rfl⟩
  simp [execute_config_stencil, gl_set_flag, h]

/-- An instance of C22: a stencil configuration for both facings. -/
theorem execute_config_stencil_enabled_witness :
    execute_config_stencil
        ⟨stencil_facing.BOTH, ⟨true, stencil_test_func.LESS_EQUAL, 1, 255, 15,
          stencil_result_op.KEEP, stencil_result_op.INCREMENT_WRAP,
          stencil_result_op.REPLACE⟩⟩ =
      (status.of_type status_type.SUCCESS,
        [backend_call.glEnablei GL_STENCIL_TEST 0,
          backend_call.glStencilFuncSeparate GL_FRONT_AND_BACK GL_LEQUAL 1 255,
          backend_call.glStencilMaskSeparate GL_FRONT_AND_BACK 15,
          backend_call.glStencilOpSeparate GL_FRONT_AND_BACK GL_KEEP GL_INCR_WRAP
            GL_REPLACE]) :=
  (execute_config_stencil_enabled
    ⟨stencil_facing.BOTH, ⟨true, stencil_test_func.LESS_EQUAL, 1, 255, 15,
      stencil_result_op.KEEP, stencil_result_op.INCREMENT_WRAP, stencil_result_op.REPLACE⟩⟩
    rfl).1

/-! ### Buffer copy: the order of the checks -/

/-- C24: `execute_buffer_copy` reports the earliest failing check of the order
source registered, source valid, destination registered, destination valid,
source range, destination range: its kind is the kind of that check, its
message names the buffer of that check, and no call is made; when no check
fails it makes the one `copy_data` call and returns its status; so a
registry operation is called exactly when the six checks pass. -/
theorem execute_buffer_copy_first_failing_check (impl : gl45_impl)
    (cmd : buffer_copy_command) :
    (∀ c : copy_check, first_failing_copy_check impl cmd = some c →
      rejected_naming (execute_buffer_copy impl cmd) c.kind (c.named_buffer cmd)) ∧
    (first_failing_copy_check impl cmd = none →
      ∃ src dst : buffer_state,
        impl.find_gl_buffer_state cmd.source_identifier = some src ∧
        impl.find_gl_buffer_state cmd.dest_identifier = some dst ∧
        execute_buffer_copy impl cmd =
          (impl.copy_data dst src.gl_id cmd.source_address cmd.dest_address cmd.bytes,
            [backend_call.copy_data dst src.gl_id cmd.source_address cmd.dest_address
              cmd.bytes])) ∧
    ((execute_buffer_copy impl cmd).2.any backend_call.is_registry_operation = true ↔
      first_failing_copy_check impl cmd = none) := by
  cases hs : impl.find_gl_buffer_state cmd.source_identifier with
  | none =>
    have hf : first_failing_copy_check impl cmd = some copy_check.source_registered := by
      simp [first_failing_copy_check, copy_check.in_order, copy_check.fails, hs]
    have he : execute_buffer_copy impl cmd =
        (⟨status_type.UNKNOWN_SOURCE, unknown_buffer_message cmd.source_identifier.name⟩,
          []) := by
      simp only [execute_buffer_copy, hs]
    rw [hf, he]
    refine ⟨?_, ?_, ?_⟩
    · intro c hc
      cases hc
      exact ⟨rfl, unknown_buffer_message_contains _, rfl⟩
    · intro h
      cases h
    · simp
  | some src =>
    cases hsv : src.valid with
    | false =>
      have hf : first_failing_copy_check impl cmd = some copy_check.source_valid := by
        simp [first_failing_copy_check, copy_check.in_order, copy_check.fails, hs, hsv]
      have he : execute_buffer_copy impl cmd =
          (⟨status_type.BROKEN_SOURCE, invalid_buffer_message cmd.source_identifier.name⟩,
            []) := by
        simp [execute_buffer_copy, hs, buffer_state.is_valid, hsv]
      rw [hf, he]
      refine ⟨?_, ?_, ?_⟩
      · intro c hc
        cases hc
        exact ⟨rfl, invalid_buffer_message_contains _, rfl⟩
      · intro h
        cases h
      · simp
    | true =>
      cases hd : impl.find_gl_buffer_state cmd.dest_identifier with
      | none =>
        have hf : first_failing_copy_check impl cmd = some copy_check.dest_registered := by
          simp [first_failing_copy_check, copy_check.in_order, copy_check.fails, hs, hsv, hd]
        have he : execute_buffer_copy impl cmd =
            (⟨status_type.UNKNOWN_SOURCE, unknown_buffer_message cmd.dest_identifier.name⟩,
              []) := by
          simp [execute_buffer_copy, hs, buffer_state.is_valid, hsv, hd]
        rw [hf, he]
        refine ⟨?_, ?_, ?_⟩
        · intro c hc
          cases hc
          exact ⟨rfl, unknown_buffer_message_contains _, rfl⟩
        · intro h
          cases h
        · simp
      | some dst =>
        cases hdv : dst.valid with
        | false =>
          have hf : first_failing_copy_check impl cmd = some copy_check.dest_valid := by
            simp [first_failing_copy_check, copy_check.in_order, copy_check.fails, hs, hsv,
              hd, hdv]
          have he : execute_buffer_copy impl cmd =
              (⟨status_type.BROKEN_SOURCE, invalid_buffer_message cmd.dest_identifier.name⟩,
                []) := by
            simp [execute_buffer_copy, hs, buffer_state.is_valid, hsv, hd, hdv]
          rw [hf, he]
          refine ⟨?_, ?_, ?_⟩
          · intro c hc
            cases hc
            exact ⟨rfl, invalid_buffer_message_contains _, rfl⟩
          · intro h
            cases h
          · simp
        | true =>
          by_cases h1 : cmd.source_address + cmd.bytes ≤ src.size
          · by_cases h2 : cmd.dest_address + cmd.bytes ≤ dst.size
            · have hf : first_failing_copy_check impl cmd = none := by
                simp [first_failing_copy_check, copy_check.in_order, copy_check.fails, hs,
                  hsv, hd, hdv, h1, h2]
              have he : execute_buffer_copy impl cmd =
                  (impl.copy_data dst src.gl_id cmd.source_address cmd.dest_address cmd.bytes,
                    [backend_call.copy_data dst src.gl_id cmd.source_address cmd.dest_address
                      cmd.bytes]) := by
                simp [execute_buffer_copy, hs, buffer_state.is_valid, hsv, hd, hdv,
                  buffer_state.is_in_buffer_range, h1, h2]
              rw [hf, he]
              refine ⟨?_, ?_, ?_⟩
              · intro c hc
                cases hc
              · intro _
                exact ⟨src, dst, rfl, rfl, rfl⟩
              · simp [backend_call.is_registry_operation]
            · have hf : first_failing_copy_check impl cmd = some copy_check.dest_range := by
                have h2' : dst.size < cmd.dest_address + cmd.bytes := by omega
                simp [first_failing_copy_check, copy_check.in_order, copy_check.fails, hs,
                  hsv, hd, hdv, h1, h2']
              have he : execute_buffer_copy impl cmd =
                  (⟨status_type.RANGE_OVERFLOW, copy_range_message cmd.dest_identifier.name⟩,
                    []) := by
                simp [execute_buffer_copy, hs, buffer_state.is_valid, hsv, hd, hdv,
                  buffer_state.is_in_buffer_range, h1, h2]
              rw [hf, he]
              refine ⟨?_, ?_, ?_⟩
              · intro c hc
                cases hc
                exact ⟨rfl, copy_range_message_contains _, rfl⟩
              · intro h
                cases h
              · simp
          · have hf : first_failing_copy_check impl cmd = some copy_check.source_range := by
              have h1' : src.size < cmd.source_address + cmd.bytes := by omega
              simp [first_failing_copy_check, copy_check.in_order, copy_check.fails, hs,
                hsv, hd, hdv, h1']
            have he : execute_buffer_copy impl cmd =
                (⟨status_type.RANGE_OVERFLOW, copy_range_message cmd.source_identifier.name⟩,
                  []) := by
              simp [execute_buffer_copy, hs, buffer_state.is_valid, hsv, hd, hdv,
                buffer_state.is_in_buffer_range, h1]
            rw [hf, he]
            refine ⟨?_, ?_, ?_⟩
            · intro c hc
              cases hc
              exact ⟨rfl, copy_range_message_contains _, rfl⟩
            · intro h
              cases h
            · simp

/-- Two instances of C24 on a registry with the valid 1024-byte buffer `B` and
the invalid buffer `A`: a copy from `A` to the unregistered `ghost` with a
range that fits nowhere stops at the second check, the validity of the
source; and a copy inside `B` that fits passes the six checks and is
dispatched. -/
theorem execute_buffer_copy_first_failing_check_witness :
    rejected_naming
      (execute_buffer_copy
        (mock_impl [("A", ⟨1, 64, false⟩), ("B", ⟨7, 1024, true⟩)]
          (status.of_type status_type.SUCCESS) 0)
        ⟨⟨"A"⟩, ⟨"ghost"⟩, 0, 0, 4096⟩)
      status_type.BROKEN_SOURCE "A" ∧
    ∃ src dst : buffer_state,
      (mock_impl [("A", ⟨1, 64, false⟩), ("B", ⟨7, 1024, true⟩)]
        (status.of_type status_type.SUCCESS) 0).find_gl_buffer_state ⟨"B"⟩ = some src ∧
      (mock_impl [("A", ⟨1, 64, false⟩), ("B", ⟨7, 1024, true⟩)]
        (status.of_type status_type.SUCCESS) 0).find_gl_buffer_state ⟨"B"⟩ = some dst ∧
      execute_buffer_copy
          (mock_impl [("A", ⟨1, 64, false⟩), ("B", ⟨7, 1024, true⟩)]
            (status.of_type status_type.SUCCESS) 0)
          ⟨⟨"B"⟩, ⟨"B"⟩, 0, 512, 512⟩ =
        ((mock_impl [("A", ⟨1, 64, false⟩), ("B", ⟨7, 1024, true⟩)]
            (status.of_type status_type.SUCCESS) 0).copy_data dst src.gl_id 0 512 512,
          [backend_call.copy_data dst src.gl_id 0 512 512]) :=
  ⟨(execute_buffer_copy_first_failing_check
      (mock_impl [("A", ⟨1, 64, false⟩), ("B", ⟨7, 1024, true⟩)]
        (status.of_type status_type.SUCCESS) 0)
      ⟨⟨"A"⟩, ⟨"ghost"⟩, 0, 0, 4096⟩).1 copy_check.source_valid (by rfl),
    (execute_buffer_copy_first_failing_check
      (mock_impl [("A", ⟨1, 64, false⟩), ("B", ⟨7, 1024, true⟩)]
        (status.of_type status_type.SUCCESS) 0)
      ⟨⟨"B"⟩, ⟨"B"⟩, 0, 512, 512⟩).2.1 (by rfl)⟩

/-! ### Enum translation: distinct values, distinct tokens -/

/-- C26: each translator is injective on its declared domain: two declared
values with the same token are the same value; for `gl_face_cull_mode` the
domain is `BACK`, `FRONT`, `BOTH`. -/
theorem translators_injective_on_declared :
    (∀ a b : draw_mode, a ≠ .undeclared → b ≠ .undeclared →
      gl_draw_mode a = gl_draw_mode b → a = b) ∧
    (∀ a b : draw_indexed_index_type, a ≠ .undeclared → b ≠ .undeclared →
      gl_index_size a = gl_index_size b → a = b) ∧
    (∀ a b : buffer_attachment_type, a ≠ .undeclared → b ≠ .undeclared →
      gl_buffer_attach_point a = gl_buffer_attach_point b → a = b) ∧
    (∀ a b : depth_test_func, a ≠ .undeclared → b ≠ .undeclared →
      gl_depth_test_func a = gl_depth_test_func b → a = b) ∧
    (∀ a b : clear_window_mode, a ≠ .undeclared → b ≠ .undeclared →
      gl_clear_mask a = gl_clear_mask b → a = b) ∧
    (∀ a b : stencil_facing, a ≠ .undeclared → b ≠ .undeclared →
      gl_stencil_facing a = gl_stencil_facing b → a = b) ∧
    (∀ a b : stencil_test_func, a ≠ .undeclared → b ≠ .undeclared →
      gl_stencil_test_func a = gl_stencil_test_func b → a = b) ∧
    (∀ a b : stencil_result_op, a ≠ .undeclared → b ≠ .undeclared →
      gl_stencil_test_op a = gl_stencil_test_op b → a = b) ∧
    (∀ a b : blending_factor, a ≠ .undeclared → b ≠ .undeclared →
      gl_blend_factor a = gl_blend_factor b → a = b) ∧
    (∀ a b : blending_func, a ≠ .undeclared → b ≠ .undeclared →
      gl_blend_func a = gl_blend_func b → a = b) ∧
    (∀ a b : face_cull_mode,
      (a = .BACK ∨ a = .FRONT ∨ a = .BOTH) → (b = .BACK ∨ b = .FRONT ∨ b = .BOTH) →
      gl_face_cull_mode a = gl_face_cull_mode b → a = b) := by
  refine ⟨?_, ?_, ?_, ?_, ?_, ?_, ?_, ?_, ?_, ?_, ?_⟩ <;>
  · intro a b
    cases a <;> cases b <;> decide

/-- Instances of C26: the hypotheses hold at the pair `(TRIANGLE_FAN,
TRIANGLE_FAN)`, and at two distinct declared values the tokens differ, here
for the stencil operations `ZERO` and `KEEP` and the cull modes `BACK` and
`BOTH`. -/
theorem translators_injective_on_declared_witness :
    draw_mode.TRIANGLE_FAN = draw_mode.TRIANGLE_FAN ∧
    gl_stencil_test_op stencil_result_op.ZERO ≠ gl_stencil_test_op stencil_result_op.KEEP ∧
    gl_face_cull_mode face_cull_mode.BACK ≠ gl_face_cull_mode face_cull_mode.BOTH :=
  ⟨translators_injective_on_declared.1 draw_mode.TRIANGLE_FAN draw_mode.TRIANGLE_FAN
      (by decide) (by decide) rfl,
    fun h => absurd
      (translators_injective_on_declared.2.2.2.2.2.2.2.1 stencil_result_op.ZERO
        stencil_result_op.KEEP (by decide) (by decide) h) (by decide),
    fun h => absurd
      (translators_injective_on_declared.2.2.2.2.2.2.2.2.2.2 face_cull_mode.BACK
        face_cull_mode.BOTH (Or.inl rfl) (Or.inr (Or.inr rfl)) h) (by decide)⟩

end gl45

namespace vk13

/-! ### Memory type selection -/

theorem find_memory_type_loop_ok (tf p : Nat) : ∀ (l : List Nat) (k i : Nat),
    find_memory_type.loop tf p l k = Except.ok i ↔
      ∃ flags, k ≤ i ∧ l[i - k]? = some flags ∧ memory_type_matches tf p i flags = true ∧
        ∀ j fj, k ≤ j → j < i → l[j - k]? = some fj → memory_type_matches tf p j fj = false := by
  intro l
  induction l with
  | nil =>
    intro k i
    simp [find_memory_type.loop]
  | cons f rest ih =>
    intro k i
    simp only [find_memory_type.loop]
    by_cases hm : memory_type_matches tf p k f = true
    · simp only [hm, if_true, Except.ok.injEq]
      constructor
      · intro h
        subst h
        refine ⟨f, le_refl _, by simp, hm, ?_⟩
        intro j fj h1 h2
        omega
      · rintro ⟨flags, hk, hget, hmi, hall⟩
        by_contra hne
        have hlt : k < i := by omega
        have := hall k f (le_refl _) hlt (by simp)
        rw [hm] at this
        cases this
    · simp only [hm, if_false, Bool.false_eq_true]
      rw [ih]
      constructor
      · rintro ⟨flags, hk, hget, hmi, hall⟩
        refine ⟨flags, by omega, ?_, hmi, ?_⟩
        · have : i - k = (i - (k + 1)) + 1 := by omega
          rw [this, List.getElem?_cons_succ]
          exact hget
        · intro j fj h1 h2 hj
          by_cases hjk : j = k
          · subst hjk
            simp at hj
            subst hj
            simpa using hm
          · have : j - k = (j - (k + 1)) + 1 := by omega
            rw [this, List.getElem?_cons_succ] at hj
            exact hall j fj (by omega) h2 hj
      · rintro ⟨flags, hk, hget, hmi, hall⟩
        have hne : i ≠ k := by
          intro h
          subst h
          simp at hget
          subst hget
          exact hm hmi
        refine ⟨flags, by omega, ?_, hmi, ?_⟩
        · have : i - k = (i - (k + 1)) + 1 := by omega
          rw [this, List.getElem?_cons_succ] at hget
          exact hget
        · intro j fj h1 h2 hj
          apply hall j fj (by omega) h2
          have : j - k = (j - (k + 1)) + 1 := by omega
          rw [this, List.getElem?_cons_succ]
          exact hj

theorem find_memory_type_loop_error (tf p : Nat) : ∀ (l : List Nat) (k : Nat) (msg : String),
    find_memory_type.loop tf p l k = Except.error msg ↔
      msg = "Failed to find suitable memory types" ∧
        ∀ n flags, l[n]? = some flags → memory_type_matches tf p (k + n) flags = false := by
  intro l
  induction l with
  | nil =>
    intro k msg
    simp only [find_memory_type.loop, Except.error.injEq]
    constructor
    · intro h
      refine ⟨h.symm, ?_⟩
      intro n flags hn
      simp at hn
    · rintro ⟨h, -⟩
      exact h.symm
  | cons f rest ih =>
    intro k msg
    simp only [find_memory_type.loop]
    by_cases hm : memory_type_matches tf p k f = true
    · simp only [hm, if_true]
      constructor
      · intro h
        cases h
      · rintro ⟨-, hall⟩
        have := hall 0 f (by simp)
        simp only [Nat.add_zero] at this
        rw [hm] at this
        cases this
    · simp only [hm, if_false, Bool.false_eq_true]
      rw [ih]
      constructor
      · rintro ⟨hmsg, hall⟩
        refine ⟨hmsg, ?_⟩
        intro n flags hn
        cases n with
        | zero =>
          simp at hn
          subst hn
          simpa using hm
        | succ n =>
          rw [List.getElem?_cons_succ] at hn
          have := hall n flags hn
          rwa [show k + 1 + n = k + (n + 1) by omega] at this
      · rintro ⟨hmsg, hall⟩
        refine ⟨hmsg, ?_⟩
        intro n flags hn
        have := hall (n + 1) flags (by rw [List.getElem?_cons_succ]; exact hn)
        rwa [show k + (n + 1) = k + 1 + n by omega] at this

theorem and_eq_iff_testBit (flags p : Nat) :
    flags &&& p = p ↔ ∀ b, p.testBit b = true → flags.testBit b = true := by
  constructor
  · intro h b hb
    have := congrArg (fun x => x.testBit b) h
    simp only [Nat.testBit_and, hb, Bool.and_true] at this
    exact this
  · intro h
    apply Nat.eq_of_testBit_eq
    intro b
    rw [Nat.testBit_and]
    cases hb : p.testBit b with
    | false => simp
    | true => simp [h b hb]

theorem and_two_pow_ne_zero_iff (tf i : Nat) : tf &&& 2 ^ i ≠ 0 ↔ tf.testBit i = true := by
  constructor
  · intro h
    obtain ⟨b, hb⟩ := Nat.ne_zero_implies_bit_true h
    rw [Nat.testBit_and, Nat.testBit_two_pow] at hb
    simp only [Bool.and_eq_true, decide_eq_true_eq] at hb
    obtain ⟨h1, rfl⟩ := hb
    exact h1
  · intro h hz
    have := congrArg (fun x => x.testBit i) hz
    simp [Nat.testBit_and, Nat.testBit_two_pow, h] at this

theorem memory_type_matches_iff (tf p i flags : Nat) (hi : i < 32) :
    memory_type_matches tf p i flags = true ↔
      (tf.testBit i = true ∧ ∀ b, p.testBit b = true → flags.testBit b = true) := by
  have hpow : (1 <<< i) % 2 ^ 32 = 2 ^ i := by
    rw [Nat.one_shiftLeft]
    exact Nat.mod_eq_of_lt (Nat.pow_lt_pow_right (by decide) hi)
  simp only [memory_type_matches, hpow, Bool.and_eq_true, bne_iff_ne, beq_iff_eq,
    and_two_pow_ne_zero_iff, and_eq_iff_testBit]

theorem getElem?_lt_of_count {l : List Nat} {i flags : Nat} (hcount : l.length ≤ 32)
    (h : l[i]? = some flags) : i < 32 := by
  have : i < l.length := by
    by_contra hge
    rw [List.getElem?_eq_none (by omega)] at h
    cases h
  omega

/-- C28: with at most 32 memory types, `Device::find_memory_type` returns `i`
exactly when `i` is the smallest index below the memory-type count such that
bit `i` of `type_filter` is set and the property flags of type `i` contain all
required flags; and it throws, with the message `Failed to find suitable
memory types`, exactly when there is no such index. -/
theorem find_memory_type_smallest_suitable (type_filter properties : Nat)
    (memoryTypes : List Nat) (hcount : memoryTypes.length ≤ 32) :
    (∀ i, find_memory_type type_filter properties memoryTypes = Except.ok i ↔
      (suitable_memory_type type_filter properties memoryTypes i ∧
        ∀ j, j < i → ¬ suitable_memory_type type_filter properties memoryTypes j)) ∧
    (find_memory_type type_filter properties memoryTypes =
        Except.error "Failed to find suitable memory types" ↔
      ∀ i, ¬ suitable_memory_type type_filter properties memoryTypes i) ∧
    (∀ msg, find_memory_type type_filter properties memoryTypes = Except.error msg →
      msg = "Failed to find suitable memory types") := by
  refine ⟨?_, ?_, ?_⟩
  · intro i
    rw [find_memory_type, find_memory_type_loop_ok]
    simp only [Nat.zero_le, Nat.sub_zero, true_and, true_implies]
    constructor
    · rintro ⟨flags, hget, hm, hall⟩
      have hi := getElem?_lt_of_count hcount hget
      rw [memory_type_matches_iff _ _ _ _ hi] at hm
      refine ⟨⟨flags, hget, hm.1, hm.2⟩, ?_⟩
      rintro j hj ⟨fj, hgj, hb, hc⟩
      have hmj := hall j fj hj hgj
      have : memory_type_matches type_filter properties j fj = true :=
        (memory_type_matches_iff _ _ _ _ (by omega)).2 ⟨hb, hc⟩
      rw [this] at hmj
      cases hmj
    · rintro ⟨⟨flags, hget, hb, hc⟩, hall⟩
      have hi := getElem?_lt_of_count hcount hget
      refine ⟨flags, hget, (memory_type_matches_iff _ _ _ _ hi).2 ⟨hb, hc⟩, ?_⟩
      intro j fj hj hgj
      by_contra hne
      have hmj : memory_type_matches type_filter properties j fj = true := by
        simpa using hne
      rw [memory_type_matches_iff _ _ _ _ (by omega)] at hmj
      exact hall j hj ⟨fj, hgj, hmj.1, hmj.2⟩
  · rw [find_memory_type, find_memory_type_loop_error]
    simp only [true_and, Nat.zero_add]
    constructor
    · rintro hall i ⟨flags, hget, hb, hc⟩
      have hi := getElem?_lt_of_count hcount hget
      have hm := hall i flags hget
      have : memory_type_matches type_filter properties i flags = true :=
        (memory_type_matches_iff _ _ _ _ hi).2 ⟨hb, hc⟩
      rw [this] at hm
      cases hm
    · intro hall n flags hget
      have hi := getElem?_lt_of_count hcount hget
      by_contra hne
      have hm : memory_type_matches type_filter properties n flags = true := by
        simpa using hne
      rw [memory_type_matches_iff _ _ _ _ hi] at hm
      exact hall n ⟨flags, hget, hm.1, hm.2⟩
  · intro msg h
    rw [find_memory_type, find_memory_type_loop_error] at h
    exact h.1

/-- An instance of C28: with the filter `0b1110` and the required flags `0b0110`,
of the types with flags `0b0110`, `0b0001`, `0b0111`, `0b0110` the type 2 is
returned: type 0 is not in the filter and type 1 lacks the flags. -/
theorem find_memory_type_smallest_suitable_witness :
    find_memory_type 14 6 [6, 1, 7, 6] = Except.ok 2 ∧
    suitable_memory_type 14 6 [6, 1, 7, 6] 2 ∧
    ∀ j, j < 2 → ¬ suitable_memory_type 14 6 [6, 1, 7, 6] j :=
  ⟨by rfl,
    ((find_memory_type_smallest_suitable 14 6 [6, 1, 7, 6] (by decide)).1 2).1 (by rfl)⟩

end vk13

/-! ### Shader front-end: programs across a re-initialisation -/

/-- No `init_slang_session` that returns changes `linked_shaders`: the teardown
of the previous session clears `loaded_modules` only. -/
theorem init_slang_session_keeps_linked_shaders (lib : init_answers) (st st' : slang_state)
    (s : status) (hrun : init_slang_session lib st = some (s, st')) :
    st'.linked_shaders = st.linked_shaders := by
  unfold init_slang_session init_slang_session.replace_session
    init_slang_session.create_session at hrun
  repeat' split at hrun
  all_goals first
    | (simp only [Option.some.injEq, Prod.mk.injEq] at hrun
       obtain ⟨-, rfl⟩ := hrun
       rfl)
    | cases hrun

/-- C21 (the code at the failing input): after `init_slang_session`,
`load_slang_module` of `m`, `link_slang_shader` of `p` and a second, successful
`init_slang_session`, the modules map is empty but `linked_shaders` still
holds `p`; `get_shader_data` for `p` then returns `UNSUPPORTED` for an API
without a target slot and `SUCCESS` with the code for `GL45`, not
`UNKNOWN_NAME`. -/
theorem init_slang_session_program_outlives_session :
    init_slang_session ⟨0, 1, 0, 0, 2⟩ slang_state.initial =
      some (status.of_type status_type.SUCCESS, ⟨some 1, some 2, [], [], [2]⟩) ∧
    load_slang_module ⟨some 3, none⟩ ⟨some 1, some 2, [], [], [2]⟩ "m" "void main();" =
      some (status.of_type status_type.SUCCESS, ⟨some 1, some 2, [("m", 3)], [], [2]⟩) ∧
    link_slang_shader ⟨0, some 5, none, some 6, none⟩ ⟨some 1, some 2, [("m", 3)], [], [2]⟩
        "p" "m" "main" [] =
      some (status.of_type status_type.SUCCESS,
        ⟨some 1, some 2, [("m", 3)], [("p", some 6)], [2]⟩) ∧
    init_slang_session ⟨0, 1, 0, 0, 7⟩ ⟨some 1, some 2, [("m", 3)], [("p", some 6)], [2]⟩ =
      some (status.of_type status_type.SUCCESS,
        ⟨some 1, some 7, [], [("p", some 6)], [7]⟩) ∧
    get_shader_data ⟨some [1, 2, 3], none, none⟩ ⟨some 1, some 7, [], [("p", some 6)], [7]⟩
        "p" graphics_api.other ⟨[], 0⟩ =
      some (⟨status_type.UNSUPPORTED,
        "API selected is not currently supported for slang shaders"⟩, ⟨[], 0⟩) ∧
    get_shader_data ⟨some [1, 2, 3], none, none⟩ ⟨some 1, some 7, [], [("p", some 6)], [7]⟩
        "p" graphics_api.GL45 ⟨[], 0⟩ =
      some (status.of_type status_type.SUCCESS, ⟨[1, 2, 3], 3⟩) := by
  refine ⟨?_, ?_, ?_, ?_, ?_, ?_⟩ <;> rfl

/-! ### Shader front-end: the artifact -/

/-- The ways `get_shader_data` returns: an unknown name, an API without a target
slot and diagnostics of `getEntryPointCode` leave the artifact as it was; past
these the artifact is written from the code blob (`data_size` is the blob
length reduced modulo `2 ^ 32`, `data` the first `data_size` bytes), and the
status is `BACKEND_FAILURE` when `getLayout` writes diagnostics and `SUCCESS`
otherwise. -/
theorem get_shader_data_returns (lib : artifact_answers) (st : slang_state)
    (shader_name : String) (api : graphics_api) (out out' : shader_data) (s : status)
    (hrun : get_shader_data lib st shader_name api out = some (s, out')) :
    (s.kind = status_type.UNKNOWN_NAME ∧ out' = out) ∨
    (s.kind = status_type.UNSUPPORTED ∧ out' = out) ∨
    (s.kind = status_type.BACKEND_FAILURE ∧ out' = out ∧
      ∃ msg, lib.code_diagnostics = some msg) ∨
    (∃ blob, lib.code_diagnostics = none ∧ lib.shader_blob = some blob ∧
      out' = ⟨blob.take (blob.length % 2 ^ 32), blob.length % 2 ^ 32⟩ ∧
      ((s.kind = status_type.BACKEND_FAILURE ∧ ∃ msg, lib.layout_diagnostics = some msg) ∨
        (s.kind = status_type.SUCCESS ∧ lib.layout_diagnostics = none))) := by
  cases hl : st.linked_shaders.lookup shader_name with
  | none =>
    simp only [get_shader_data, hl, Option.some.injEq, Prod.mk.injEq] at hrun
    obtain ⟨rfl, rfl⟩ := hrun
    exact Or.inl ⟨rfl, rfl⟩
  | some linked =>
    cases api with
    | other =>
      simp only [get_shader_data, hl, get_target_index_for_api, if_true, Option.some.injEq,
        Prod.mk.injEq] at hrun
      obtain ⟨rfl, rfl⟩ := hrun
      exact Or.inr (Or.inl ⟨rfl, rfl⟩)
    | GL45 =>
      have hidx : ¬ ((0 : Int) = -1) := by decide
      simp only [get_shader_data, hl, get_target_index_for_api, hidx, if_false] at hrun
      cases linked with
      | none => cases hrun
      | some program =>
        cases hc : lib.code_diagnostics with
        | some msg =>
          simp only [hc, Option.some.injEq, Prod.mk.injEq] at hrun
          obtain ⟨rfl, rfl⟩ := hrun
          exact Or.inr (Or.inr (Or.inl ⟨rfl, rfl, msg, rfl⟩))
        | none =>
          cases hb : lib.shader_blob with
          | none =>
            simp only [hc, hb] at hrun
            cases hrun
          | some blob =>
            cases hd : lib.layout_diagnostics with
            | some msg =>
              simp only [hc, hb, hd, Option.some.injEq, Prod.mk.injEq] at hrun
              obtain ⟨rfl, rfl⟩ := hrun
              exact Or.inr (Or.inr (Or.inr ⟨blob, rfl, rfl, rfl, Or.inl ⟨rfl, msg, rfl⟩⟩))
            | none =>
              simp only [hc, hb, hd, Option.some.injEq, Prod.mk.injEq] at hrun
              obtain ⟨rfl, rfl⟩ := hrun
              exact Or.inr (Or.inr (Or.inr ⟨blob, rfl, rfl, rfl, Or.inr ⟨rfl, rfl⟩⟩))

/-- What `get_shader_data` has written when it returns `SUCCESS`. -/
theorem get_shader_data_success (lib : artifact_answers) (st : slang_state)
    (shader_name : String) (api : graphics_api) (out out' : shader_data) (s : status)
    (hrun : get_shader_data lib st shader_name api out = some (s, out'))
    (hok : s.kind = status_type.SUCCESS) :
    ∃ blob, lib.shader_blob = some blob ∧ out'.data_size = blob.length % 2 ^ 32 ∧
      out'.data = blob.take (blob.length % 2 ^ 32) := by
  rcases get_shader_data_returns lib st shader_name api out out' s hrun with
    ⟨hk, -⟩ | ⟨hk, -⟩ | ⟨hk, -, -⟩ | ⟨blob, -, hb, rfl, -⟩
  · rw [hk] at hok
    cases hok
  · rw [hk] at hok
    cases hok
  · rw [hk] at hok
    cases hok
  · exact ⟨blob, hb, rfl, rfl⟩

/-- C23 as stated fails: for a code blob of `2 ^ 32` zero bytes,
`get_shader_data` returns `SUCCESS` with `data_size = 0` and no byte copied,
while the blob is `4294967296` bytes long. -/
theorem get_shader_data_size_truncated :
    get_shader_data ⟨some (List.replicate 4294967296 0), none, none⟩
        ⟨some 1, some 2, [], [("p", some 6)], [2]⟩ "p" graphics_api.GL45 ⟨[], 0⟩ =
      some (status.of_type status_type.SUCCESS, ⟨[], 0⟩) ∧
    (List.replicate 4294967296 0).length = 4294967296 := by
  constructor
  · have hlookup : List.lookup "p" [("p", (some 6 : Option Nat))] = some (some 6) := by rfl
    have hidx : get_target_index_for_api graphics_api.GL45 = 0 := rfl
    simp only [get_shader_data, hlookup, hidx, List.length_replicate]
    norm_num
  · exact List.length_replicate _ _

/-- C23 (amended): whenever `get_shader_data` returns `SUCCESS` and the code
blob is shorter than `2 ^ 32` bytes, `data_size` is the byte length of the
blob and `data` holds exactly the bytes of the blob. -/
theorem get_shader_data_copies_blob (lib : artifact_answers) (st : slang_state)
    (shader_name : String) (api : graphics_api) (out out' : shader_data) (s : status)
    (blob : List Nat)
    (hrun : get_shader_data lib st shader_name api out = some (s, out'))
    (hok : s.kind = status_type.SUCCESS)
    (hblob : lib.shader_blob = some blob)
    (hlen : blob.length < 2 ^ 32) :
    out'.data_size = blob.length ∧ out'.data = blob ∧
      out'.data.take out'.data_size = blob := by
  obtain ⟨blob', hb, hsize, hdata⟩ :=
    get_shader_data_success lib st shader_name api out out' s hrun hok
  rw [hblob] at hb
  cases hb
  rw [Nat.mod_eq_of_lt hlen] at hsize hdata
  rw [List.take_length] at hdata
  refine ⟨hsize, hdata, ?_⟩
  rw [hsize, hdata, List.take_length]

/-- An instance of C23 (amended): a blob of four bytes is returned as an
artifact of four bytes. -/
theorem get_shader_data_copies_blob_witness :
    get_shader_data ⟨some [27, 91, 52, 48], none, none⟩
        ⟨some 1, some 2, [], [("p", some 6)], [2]⟩ "p" graphics_api.GL45 ⟨[], 0⟩ =
      some (status.of_type status_type.SUCCESS, ⟨[27, 91, 52, 48], 4⟩) ∧
    (⟨[27, 91, 52, 48], 4⟩ : shader_data).data_size = [27, 91, 52, 48].length ∧
    (⟨[27, 91, 52, 48], 4⟩ : shader_data).data = [27, 91, 52, 48] ∧
    (⟨[27, 91, 52, 48], 4⟩ : shader_data).data.take
      (⟨[27, 91, 52, 48], 4⟩ : shader_data).data_size = [27, 91, 52, 48] :=
  ⟨by rfl,
    get_shader_data_copies_blob ⟨some [27, 91, 52, 48], none, none⟩
      ⟨some 1, some 2, [], [("p", some 6)], [2]⟩ "p" graphics_api.GL45 ⟨[], 0⟩
      ⟨[27, 91, 52, 48], 4⟩ (status.of_type status_type.SUCCESS) [27, 91, 52, 48]
      (by rfl) rfl rfl (by decide)⟩

/-! ### Shader front-end: the outcomes of a module load -/

/-- On a live session `load_slang_module` has three outcomes: with a
diagnostics blob it fails with `BACKEND_FAILURE` and the state is unchanged;
with a module handle and no diagnostics it records the handle under the name
and returns `SUCCESS`; with neither it returns nothing. -/
theorem load_slang_module_outcomes (st : slang_state) (name source : String) (session : Nat)
    (hactive : st.active_slang_session = some session)
    (hlive : session ∈ st.live_sessions) :
    (∀ (module_handle : Option Nat) (msg : String),
      ∃ text, load_slang_module ⟨module_handle, some msg⟩ st name source =
        some (⟨status_type.BACKEND_FAILURE, text⟩, st)) ∧
    (∀ handle : Nat,
      load_slang_module ⟨some handle, none⟩ st name source =
        some (status.of_type status_type.SUCCESS,
          ⟨st.global_slang_context, st.active_slang_session,
            map_assign st.loaded_modules name handle, st.linked_shaders,
            st.live_sessions⟩)) ∧
    load_slang_module ⟨none, none⟩ st name source = none := by
  refine ⟨?_, ?_, ?_⟩
  · intro module_handle msg
    refine ⟨"Slang module loading \x27" ++ name ++ "\x27 failed with error: \x27" ++ msg ++
      "\x27", ?_⟩
    simp only [load_slang_module, hactive, hlive, if_true]
  · intro handle
    simp only [load_slang_module, hactive, hlive, if_true]
  · simp only [load_slang_module, hactive, hlive, if_true]

/-- C25 (the code at the failing input): on a live session, when the library
returns neither a module handle nor a diagnostics blob, `load_slang_module`
returns no status: line 104 reads the buffer of the null diagnostics blob. -/
theorem load_slang_module_no_module_no_diagnostics :
    load_slang_module ⟨none, none⟩ ⟨some 1, some 2, [("m", 3)], [], [2]⟩ "n" "void main();" =
      none := by
  rfl

/-! ### Shader front-end: the artifact on failure -/

/-- C27 as stated fails: when the code is extracted and `getLayout` then
writes diagnostics, `get_shader_data` returns `BACKEND_FAILURE` and the
caller's artifact, empty before the call, holds the three bytes of the code
and `data_size = 3`. -/
theorem get_shader_data_layout_failure_writes :
    get_shader_data ⟨some [1, 2, 3], none, some "no layout"⟩
        ⟨some 1, some 2, [], [("p", some 6)], [2]⟩ "p" graphics_api.GL45 ⟨[], 0⟩ =
      some (⟨status_type.BACKEND_FAILURE,
        "Slang shader layout for \x27p\x27 failed with error: \x27no layout\x27"⟩,
        ⟨[1, 2, 3], 3⟩) ∧
    (⟨[1, 2, 3], 3⟩ : shader_data) ≠ ⟨[], 0⟩ := by
  constructor
  · rfl
  · decide

/-- C27 (amended): `get_shader_data` leaves the caller's artifact unchanged
when it returns `UNKNOWN_NAME` or `UNSUPPORTED`, and when it returns
`BACKEND_FAILURE` because `getEntryPointCode` wrote diagnostics; when it
returns `BACKEND_FAILURE` with no diagnostics from `getEntryPointCode`, the
failure is the one of `getLayout` and the artifact has been written from the
code blob. -/
theorem get_shader_data_out_on_failure (lib : artifact_answers) (st : slang_state)
    (shader_name : String) (api : graphics_api) (out out' : shader_data) (s : status)
    (hrun : get_shader_data lib st shader_name api out = some (s, out')) :
    (s.kind = status_type.UNKNOWN_NAME ∨ s.kind = status_type.UNSUPPORTED → out' = out) ∧
    (∀ msg, lib.code_diagnostics = some msg → out' = out) ∧
    (s.kind = status_type.BACKEND_FAILURE → lib.code_diagnostics = none →
      ∃ blob msg, lib.shader_blob = some blob ∧ lib.layout_diagnostics = some msg ∧
        out' = ⟨blob.take (blob.length % 2 ^ 32), blob.length % 2 ^ 32⟩) := by
  rcases get_shader_data_returns lib st shader_name api out out' s hrun with
    ⟨hk, ho⟩ | ⟨hk, ho⟩ | ⟨hk, ho, msg, hmsg⟩ | ⟨blob, hc, hb, ho, hrest⟩
  · refine ⟨fun _ => ho, fun _ _ => ho, ?_⟩
    intro h
    rw [hk] at h
    cases h
  · refine ⟨fun _ => ho, fun _ _ => ho, ?_⟩
    intro h
    rw [hk] at h
    cases h
  · refine ⟨fun _ => ho, fun _ _ => ho, ?_⟩
    intro _ hnone
    rw [hnone] at hmsg
    cases hmsg
  · refine ⟨?_, ?_, ?_⟩
    · rcases hrest with ⟨hk, -⟩ | ⟨hk, -⟩ <;>
      · rintro (h | h) <;>
        · rw [hk] at h
          cases h
    · intro msg hmsg
      rw [hc] at hmsg
      cases hmsg
    · intro hfail _
      rcases hrest with ⟨-, msg, hmsg⟩ | ⟨hk, -⟩
      · exact ⟨blob, msg, hb, hmsg, ho⟩
      · rw [hk] at hfail
        cases hfail

/-- Instances of C27 (amended): an unknown name and a failing code extraction
return with the artifact `([9], 1)` as it was before the call. -/
theorem get_shader_data_out_on_failure_witness :
    (get_shader_data ⟨some [1, 2, 3], none, none⟩
        ⟨some 1, some 2, [], [("p", some 6)], [2]⟩ "q" graphics_api.GL45 ⟨[9], 1⟩ =
      some (⟨status_type.UNKNOWN_NAME, "No linked slang shader called \x27q\x27 exists."⟩,
        ⟨[9], 1⟩) ∧
      (⟨[9], 1⟩ : shader_data) = ⟨[9], 1⟩) ∧
    (get_shader_data ⟨none, some "bad target", none⟩
        ⟨some 1, some 2, [], [("p", some 6)], [2]⟩ "p" graphics_api.GL45 ⟨[9], 1⟩ =
      some (⟨status_type.BACKEND_FAILURE,
        "Slang shader data for \x27p\x27 failed with error: \x27bad target\x27"⟩,
        ⟨[9], 1⟩) ∧
      (⟨[9], 1⟩ : shader_data) = ⟨[9], 1⟩) :=
  ⟨⟨by rfl,
      (get_shader_data_out_on_failure ⟨some [1, 2, 3], none, none⟩
        ⟨some 1, some 2, [], [("p", some 6)], [2]⟩ "q" graphics_api.GL45 ⟨[9], 1⟩ ⟨[9], 1⟩
        ⟨status_type.UNKNOWN_NAME, "No linked slang shader called \x27q\x27 exists."⟩
        (by rfl)).1 (Or.inl rfl)⟩,
    ⟨by rfl,
      (get_shader_data_out_on_failure ⟨none, some "bad target", none⟩
        ⟨some 1, some 2, [], [("p", some 6)], [2]⟩ "p" graphics_api.GL45 ⟨[9], 1⟩ ⟨[9], 1⟩
        ⟨status_type.BACKEND_FAILURE,
          "Slang shader data for \x27p\x27 failed with error: \x27bad target\x27"⟩
        (by rfl)).2.1 "bad target" rfl⟩⟩

end stardraw
